import Mathlib

/-!
# Diag-LED: the activity / diagnostic light class of `src/diag_led.h`

A shallow embedding of the C++ class `Diagnostic_LED`.

* The object is a record of its member variables plus the two effects it has on
  the outside world: the `pinMode` call of the constructor and the level of the
  last `digitalWrite` on its pin.
* `millis()` is an input: every function that reads the clock takes the value
  returned by `millis()` as its first argument.
* `uint32_t` arithmetic is arithmetic on `Nat` modulo `2 ^ 32`, `uint8_t`
  increments are modulo `256`.
* The file is compiled without `IGNORE_CONFUSING_ERRORS` (line 41 is commented
  out), so `setErrorCode` uses the first branch of the `#ifndef`.
-/

namespace DiagLED

/-- The enumeration `ActivityStates` (diag_led.h, lines 43-50). -/
inductive ActivityStates where
  | none
  | idle
  | blink
  | heartbeat
  | manual
  | error
  deriving DecidableEq, Repr

/-- The constant `DL_OFF` (`#define DL_OFF 0`), as the `bool` it is used as. -/
abbrev DL_OFF : Bool := false

/-- The constant `DL_ON` (`#define DL_ON 1`), as the `bool` it is used as. -/
abbrev DL_ON : Bool := true

/-- The member variables of `Diagnostic_LED` (lines 118-136), and the state of
the output pin: `pinIsOutput` records `pinMode(_outputPin, OUTPUT)`, `pinLevel`
the level of the last `digitalWrite(_outputPin, ...)`. -/
structure Diagnostic_LED where
  _invertOutput : Bool
  _outputPin : Nat
  activity : ActivityStates
  pendingActivity : ActivityStates
  diagLight : Bool
  activityLastCall : Nat
  lastClockTime : Nat
  errorReadoutTime : Nat
  errorReadoutCount : Nat
  errorReadoutStep : Nat
  errorCode : Nat
  heartbeatStep : Nat
  heartbeatTime : Nat
  blinkRate : Nat
  pinIsOutput : Bool
  pinLevel : Bool
  deriving DecidableEq, Repr

/-- Subtraction of two `uint32_t` values: `a - b` modulo `2 ^ 32`. -/
def sub32 (a b : Nat) : Nat := (a + 2 ^ 32 - b % 2 ^ 32) % 2 ^ 32

/-- The increment `x++` of a `uint8_t`. -/
def inc8 (x : Nat) : Nat := (x + 1) % 256

/-- The member initialisers of the class (lines 118-136), before the
constructor body runs. -/
def memberInit : Diagnostic_LED where
  _invertOutput := false
  _outputPin := 0
  activity := .idle
  pendingActivity := .none
  diagLight := DL_OFF
  activityLastCall := 0
  lastClockTime := 0
  errorReadoutTime := 0
  errorReadoutCount := 0
  errorReadoutStep := 0
  errorCode := 0
  heartbeatStep := 0
  heartbeatTime := 0
  blinkRate := 500
  pinIsOutput := false
  pinLevel := false

/-- The member function `setDiagLED` (lines 152-159). -/
def Diagnostic_LED.setDiagLED (s : Bool) (d : Diagnostic_LED) : Diagnostic_LED :=
  let d := { d with diagLight := s }
  if d._invertOutput then
    { d with pinLevel := !d.diagLight }
  else
    { d with pinLevel := d.diagLight }

/-- The member function `toggleDiagLED` (lines 161-164). -/
def Diagnostic_LED.toggleDiagLED (d : Diagnostic_LED) : Diagnostic_LED :=
  let d := { d with diagLight := !d.diagLight }
  { d with pinLevel := d.diagLight }

/-- The member function `setActivity` (lines 67-69). -/
def Diagnostic_LED.setActivity (s : ActivityStates) (d : Diagnostic_LED) :
    Diagnostic_LED :=
  { d with pendingActivity := s }

/-- The member function `updateActivityState` (lines 138-150). -/
def Diagnostic_LED.updateActivityState (d : Diagnostic_LED) : Diagnostic_LED :=
  if d.pendingActivity ≠ .none ∧
      (d.activity ≠ .error ∨ (d.activity = .error ∧ d.errorReadoutStep = 3)) then
    let d := { d with
      activityLastCall := 0
      errorReadoutCount := 0
      errorReadoutStep := 0
      errorReadoutTime := 0 }
    let d := d.setDiagLED DL_OFF
    { d with activity := d.pendingActivity, pendingActivity := .none }
  else
    d

/-- The `switch (heartbeatStep)` of `updateActivity` (lines 198-236). -/
def Diagnostic_LED.heartbeatSwitch (currentTime : Nat) (d : Diagnostic_LED) :
    Diagnostic_LED :=
  match d.heartbeatStep with
  | 0 =>
    let d := d.setDiagLED DL_ON
    { d with heartbeatStep := inc8 d.heartbeatStep }
  | 1 =>
    let d := d.setDiagLED DL_OFF
    { d with heartbeatStep := inc8 d.heartbeatStep, heartbeatTime := currentTime }
  | 2 =>
    if sub32 currentTime d.heartbeatTime ≥ 200 then
      { d with heartbeatTime := currentTime, heartbeatStep := inc8 d.heartbeatStep }
    else
      d
  | 3 =>
    let d := d.setDiagLED DL_ON
    { d with heartbeatStep := inc8 d.heartbeatStep }
  | 4 =>
    let d := d.setDiagLED DL_OFF
    { d with heartbeatTime := currentTime, heartbeatStep := inc8 d.heartbeatStep }
  | _ =>
    if sub32 currentTime d.heartbeatTime ≥ 2000 then
      { d with heartbeatTime := currentTime, heartbeatStep := 0 }
    else
      d

/-- The `switch (errorReadoutStep)` of `updateActivity` (lines 248-315). -/
def Diagnostic_LED.errorSwitch (currentTime : Nat) (d : Diagnostic_LED) :
    Diagnostic_LED :=
  match d.errorReadoutStep with
  | 0 =>
    if sub32 currentTime d.errorReadoutTime ≥ 1000 then
      { d with errorReadoutTime := currentTime, errorReadoutStep := inc8 d.errorReadoutStep }
    else
      d
  | 1 =>
    if d.diagLight = DL_OFF then
      if d.errorReadoutCount < d.errorCode >>> 4 then
        d.setDiagLED DL_ON
      else
        { d with
          errorReadoutTime := 0
          errorReadoutCount := 0
          errorReadoutStep := inc8 d.errorReadoutStep }
    else
      let d := d.setDiagLED DL_OFF
      { d with errorReadoutCount := inc8 d.errorReadoutCount }
  | 2 =>
    if sub32 currentTime d.errorReadoutTime ≥ 4000 then
      { d with
        errorReadoutTime := currentTime
        errorReadoutStep := inc8 d.errorReadoutStep
        errorReadoutCount := 0 }
    else
      d
  | 3 =>
    if d.diagLight = DL_OFF then
      if d.errorReadoutCount < d.errorCode &&& 0xF then
        d.setDiagLED DL_ON
      else
        { d with
          errorReadoutTime := currentTime
          errorReadoutStep := inc8 d.errorReadoutStep
          errorReadoutCount := 0 }
    else
      let d := d.setDiagLED DL_OFF
      { d with errorReadoutCount := inc8 d.errorReadoutCount }
  | 4 =>
    if sub32 currentTime d.errorReadoutTime ≥ 5000 then
      { d with
        errorReadoutTime := currentTime
        errorReadoutStep := 0
        errorReadoutCount := 0 }
    else
      d
  | _ =>
    { d with
      errorReadoutStep := 0
      errorReadoutCount := 0
      errorReadoutTime := currentTime }

/-- The `switch (activity)` of `updateActivity` (lines 171-323); the `default`
label is reached by `none`, the only enumerator without a `case`. -/
def Diagnostic_LED.activitySwitch (currentTime : Nat) (d : Diagnostic_LED) :
    Diagnostic_LED :=
  match d.activity with
  | .idle =>
    if d.diagLight ≠ DL_ON then d.setDiagLED DL_ON else d
  | .blink =>
    if sub32 currentTime d.activityLastCall ≥ d.blinkRate then
      Diagnostic_LED.toggleDiagLED { d with activityLastCall := currentTime }
    else
      d
  | .heartbeat =>
    if sub32 currentTime d.activityLastCall ≥ 75 then
      Diagnostic_LED.heartbeatSwitch currentTime { d with activityLastCall := currentTime }
    else
      d
  | .manual => d
  | .error =>
    if sub32 currentTime d.activityLastCall ≥ 500 then
      Diagnostic_LED.errorSwitch currentTime { d with activityLastCall := currentTime }
    else
      d
  | .none => d.setActivity .idle

/-- The member function `updateActivity` (lines 166-324). `millis` is the value
`millis()` returns, stored in the `uint32_t currentTime`; the parameter
`_lastClockTime` is only used in commented-out code. -/
def Diagnostic_LED.updateActivity (millis : Nat) (_lastClockTime : Nat)
    (d : Diagnostic_LED) : Diagnostic_LED :=
  let currentTime := millis % 2 ^ 32
  let d := d.updateActivityState
  d.activitySwitch currentTime

/-- The constructor `Diagnostic_LED(_p, _i)` (lines 54-61). -/
def Diagnostic_LED.new (_p : Nat) (_i : Bool) : Diagnostic_LED :=
  let d := { memberInit with _outputPin := _p, _invertOutput := _i }
  let d := { d with pinIsOutput := true }
  let d := d.setDiagLED DL_ON
  d.setActivity .idle

/-- The member function `update` (lines 63-65): the tick of the controller. -/
def Diagnostic_LED.update (millis : Nat) (d : Diagnostic_LED) : Diagnostic_LED :=
  d.updateActivity millis d.lastClockTime

/-- The member function `readErrorCode` (lines 71-73). -/
def Diagnostic_LED.readErrorCode (d : Diagnostic_LED) : Nat :=
  d.errorCode

/-- The acceptance test of `setErrorCode` (lines 79-83), for a `uint8_t`. -/
def accepted (_ec : Nat) : Bool :=
  ((_ec >>> 4 < 9) && (_ec >>> 4 > 0)) && ((_ec &&& 0xF < 9) && (_ec &&& 0xF > 0))

/-- The member function `setErrorCode` (lines 75-95): the returned byte and the new state. -/
def Diagnostic_LED.setErrorCode (_ec : Nat) (d : Diagnostic_LED) :
    Nat × Diagnostic_LED :=
  if accepted _ec then
    let d := { d with errorCode := _ec }
    let d := d.setActivity .error
    (d.errorCode, d)
  else
    (0, d)

/-- The member function `clearErrorCode` (lines 97-100). -/
def Diagnostic_LED.clearErrorCode (d : Diagnostic_LED) : Diagnostic_LED :=
  Diagnostic_LED.setActivity .idle { d with errorCode := 0 }

/-- The member function `set` (lines 102-105). -/
def Diagnostic_LED.set (s : Bool) (d : Diagnostic_LED) : Diagnostic_LED :=
  Diagnostic_LED.setDiagLED s { d with activity := .manual }

/-- The member function `resetActivity` (lines 107-110). -/
def Diagnostic_LED.resetActivity (millis : Nat) (d : Diagnostic_LED) :
    Diagnostic_LED :=
  Diagnostic_LED.update millis { d with activity := .idle }

/-- The member function `setBlinkRate` (lines 112-114). -/
def Diagnostic_LED.setBlinkRate (_ms : Nat) (d : Diagnostic_LED) : Diagnostic_LED :=
  { d with blinkRate := _ms }

/-- The states a program can bring the object into: the constructor followed by
any sequence of calls of the public member functions, with arguments of the
parameter types (`uint8_t` below `256`, `uint16_t` below `65536`). -/
inductive Reachable : Diagnostic_LED → Prop where
  | construct (_p : Nat) (_i : Bool) : _p < 256 → Reachable (Diagnostic_LED.new _p _i)
  | update (millis : Nat) {d : Diagnostic_LED} :
      Reachable d → Reachable (d.update millis)
  | setActivity (s : ActivityStates) {d : Diagnostic_LED} :
      Reachable d → Reachable (d.setActivity s)
  | setErrorCode (_ec : Nat) {d : Diagnostic_LED} :
      _ec < 256 → Reachable d → Reachable (d.setErrorCode _ec).2
  | clearErrorCode {d : Diagnostic_LED} :
      Reachable d → Reachable d.clearErrorCode
  | set (s : Bool) {d : Diagnostic_LED} :
      Reachable d → Reachable (d.set s)
  | resetActivity (millis : Nat) {d : Diagnostic_LED} :
      Reachable d → Reachable (d.resetActivity millis)
  | setBlinkRate (_ms : Nat) {d : Diagnostic_LED} :
      _ms < 65536 → Reachable d → Reachable (d.setBlinkRate _ms)

/-- The state after a sequence of ticks: `update` at each timestamp of the list,
in order, with no other call in between. -/
def Diagnostic_LED.updates (ts : List Nat) (d : Diagnostic_LED) : Diagnostic_LED :=
  ts.foldl (fun d t => d.update t) d

/-- A freshly constructed object on pin 13 (the usual `LED_BUILTIN`), output
not inverted. -/
def fresh : Diagnostic_LED := Diagnostic_LED.new 13 false

/-- The error readout driven as in the specification: on a fresh object
`setErrorCode(code)`, then `n` ticks, at the timestamps `0, 500, ..., 500 * (n - 1)`
and with no other call. -/
def errorRun (code : Nat) : Nat → Diagnostic_LED
  | 0 => (fresh.setErrorCode code).2
  | n + 1 => (errorRun code n).update (500 * n)

/-- An object constructed with `DL_INVERT_OUTPUT`, asked to blink, after one
tick at `millis() = 500`. -/
def invertedBlink : Diagnostic_LED :=
  ((Diagnostic_LED.new 13 true).setActivity .blink).update 500

/-- An error readout of code `0x11` interrupted by a request: the ticks at
`0, 500, ..., 3500` bring the readout to step 2, then `setActivity(idle)`. -/
def pendingAtStepTwo : Diagnostic_LED :=
  (errorRun 0x11 8).setActivity .idle

/-- A blinking object whose rate was set to 0: `setBlinkRate(0)`,
`setActivity(blink)` and a tick at `millis() = 0` on a fresh object. -/
def zeroRateBlink : Diagnostic_LED :=
  ((fresh.setBlinkRate 0).setActivity .blink).update 0

/-- The blink test of the specification: an object constructed on pin `_p` with
inversion flag `_i`, `setActivity(blink)`, a tick at `millis() = 0`, and then a
tick at every millisecond: `blinkRun _p _i n` is the state after the ticks at
`0, 1, ..., n`. -/
def blinkRun (_p : Nat) (_i : Bool) : Nat → Diagnostic_LED
  | 0 => ((Diagnostic_LED.new _p _i).setActivity .blink).update 0
  | n + 1 => (blinkRun _p _i n).update (n + 1)

/-- The shape of the object during an error readout on `fresh` with nothing
pending: everything but the six members the readout works on is fixed. On a
pin that is not inverted `setDiagLED` keeps `pinLevel` equal to `diagLight`. -/
def errState (code last step count : Nat) (light : Bool) (ert : Nat) : Diagnostic_LED :=
  { fresh with
    activity := .error
    pendingActivity := .none
    errorCode := code
    activityLastCall := last
    errorReadoutStep := step
    errorReadoutCount := count
    diagLight := light
    pinLevel := light
    errorReadoutTime := ert }

/-- Closed form of one playback cycle, as observed from outside: the readout
step and the logical output `j` ticks after the cycle began, for nibbles `h`
and `l` and `w` ticks of waiting in step 2. -/
def cycleObs (h l w j : Nat) : Nat × Bool :=
  if j < 2 then (0, false)
  else if j < 3 + 2 * h then (1, decide ((j - 2) % 2 = 1))
  else if j < 4 + 2 * h + w then (2, false)
  else if j < 5 + 2 * h + w + 2 * l then (3, decide ((j - (4 + 2 * h + w)) % 2 = 1))
  else if j < 15 + 2 * h + w + 2 * l then (4, false)
  else (0, false)

/-- Closed form of one playback cycle: the object `j` ticks after a cycle that
began with the tick at time `T`, the ticks being 500 ms apart. -/
def cycleState (code T w j : Nat) : Diagnostic_LED :=
  if j < 2 then
    errState code (T + 500 * j) 0 0 false T
  else if j < 3 + 2 * (code / 16) then
    errState code (T + 500 * j) 1 ((j - 2) / 2) (decide ((j - 2) % 2 = 1)) (T + 1000)
  else if j < 4 + 2 * (code / 16) + w then
    errState code (T + 500 * j) 2 0 false 0
  else if j < 5 + 2 * (code / 16) + w + 2 * (code % 16) then
    errState code (T + 500 * j) 3 ((j - (4 + 2 * (code / 16) + w)) / 2)
      (decide ((j - (4 + 2 * (code / 16) + w)) % 2 = 1))
      (T + 500 * (4 + 2 * (code / 16) + w))
  else if j < 15 + 2 * (code / 16) + w + 2 * (code % 16) then
    errState code (T + 500 * j) 4 0 false (T + 500 * (5 + 2 * (code / 16) + w + 2 * (code % 16)))
  else
    errState code (T + 500 * j) 0 0 false (T + 500 * j)

/-- The number of ticks the readout of `code` waits in step 2 during playback
cycle `c`. The wait of step 2 is measured from clock value 0, so it is over as
soon as the clock shows 4000: only the first cycle of a code with high nibble 1
waits at all. -/
def stepTwoWait (code c : Nat) : Nat :=
  if c = 0 ∧ code / 16 = 1 then 2 else 0

/-- The number of ticks (500 ms apart) that playback cycle `c` of `code` takes. -/
def cycleLength (code c : Nat) : Nat :=
  15 + 2 * (code / 16) + stepTwoWait code c + 2 * (code % 16)

/-- The number of ticks of `errorRun` after which playback cycle `c` begins: the
first cycle begins with the tick at 0 that enters `error`. -/
def cycleStart (code : Nat) : Nat → Nat
  | 0 => 1
  | c + 1 => cycleStart code c + cycleLength code c

/-- In the error run, the tick that follows state number `k` switches the light
on while the readout is in step `st`. -/
def pulseStartsAt (code st k : Nat) : Bool :=
  decide ((errorRun code k).errorReadoutStep = st) &&
    !(errorRun code k).diagLight && (errorRun code (k + 1)).diagLight

/-- In the error run, the tick that follows state number `k` switches the light
off while the readout is in step `st`: a pulse is complete. -/
def pulseEndsAt (code st k : Nat) : Bool :=
  decide ((errorRun code k).errorReadoutStep = st) &&
    (errorRun code k).diagLight && !(errorRun code (k + 1)).diagLight

/-- The number of `k` with `a ≤ k < b` for which `p k` holds. -/
def countTicks (p : Nat → Bool) (a b : Nat) : Nat :=
  (List.range' a (b - a)).countP p

/-- A fresh object after its first tick, then `setActivity(error)`: nothing was
ever passed to `setErrorCode`. -/
def errorRequested : Diagnostic_LED :=
  (fresh.update 0).setActivity .error

/-- A fresh object after its first tick, then `setActivity(blink)`. -/
def blinkRequested : Diagnostic_LED :=
  (fresh.update 0).setActivity .blink

/-- The heartbeat test of the specification: on a fresh object
`setActivity(heartbeat)` and a tick at `millis() = 0`, then a tick every 75 ms:
`heartbeatRun n` is the state after the ticks at `0, 75, ..., 75 * n`. -/
def heartbeatRun : Nat → Diagnostic_LED
  | 0 => (fresh.setActivity .heartbeat).update 0
  | n + 1 => (heartbeatRun n).update (75 * (n + 1))

/-- A heartbeat left at step 2 (after the ticks at 0, 75, 150, 225) for `idle`
(request and tick at 300), and then requested again. -/
def heartbeatResumed : Diagnostic_LED :=
  (((heartbeatRun 3).setActivity .idle).update 300).setActivity .heartbeat

/-- A fresh object after its first tick, then `setErrorCode(0x23)`: the next
tick enters `error`. -/
def lateErrorEntry : Diagnostic_LED :=
  ((fresh.update 0).setErrorCode 0x23).2

/-- A blinking object whose last toggle was 100 ms before the 32-bit clock
wraps: `setActivity(blink)` and a tick at `2 ^ 32 - 100` on a fresh object. -/
def wrapBlink : Diagnostic_LED :=
  (fresh.setActivity .blink).update (2 ^ 32 - 100)

/-- The shape of the object during a heartbeat on `fresh` with nothing pending:
everything but the five members the heartbeat works on is fixed. -/
def hbState (last step : Nat) (light : Bool) (hbt : Nat) : Diagnostic_LED :=
  { fresh with
    activity := .heartbeat
    pendingActivity := .none
    activityLastCall := last
    heartbeatStep := step
    diagLight := light
    pinLevel := light
    heartbeatTime := hbt }

/-- Closed form of the heartbeat, as observed from outside: the heartbeat step
and the logical output at position `j` of the 34 ticks of one period. -/
def heartbeatObs (j : Nat) : Nat × Bool :=
  if j = 0 then (0, false)
  else if j = 1 then (1, true)
  else if j < 5 then (2, false)
  else if j = 5 then (3, false)
  else if j = 6 then (4, true)
  else (5, false)

/-- Closed form of the heartbeat: how long after the period began
`heartbeatTime` was last set, at position `j` of the period. -/
def heartbeatRef (j : Nat) : Nat :=
  if j < 2 then 0 else if j < 5 then 150 else if j < 7 then 375 else 525

/-- Closed form of the heartbeat run: the object after the tick at `75 * n`. -/
def heartbeatClosed (n : Nat) : Diagnostic_LED :=
  hbState (75 * n) (heartbeatObs (n % 34)).1 (heartbeatObs (n % 34)).2
    (75 * (n - n % 34) + heartbeatRef (n % 34))

/-! ## Basic facts about the embedding -/

theorem sub32_of_le {a b : Nat} (ha : a < 2 ^ 32) (hb : b ≤ a) : sub32 a b = a - b := by
  unfold sub32
  omega

theorem accepted_iff (ec : Nat) :
    accepted ec = true ↔ (1 ≤ ec / 16 ∧ ec / 16 ≤ 8) ∧ (1 ≤ ec % 16 ∧ ec % 16 ≤ 8) := by
  have h1 : ec >>> 4 = ec / 16 := by simp [Nat.shiftRight_eq_div_pow]
  have h2 : ec &&& 0xF = ec % 16 := Nat.and_pow_two_sub_one_eq_mod ec 4
  simp only [accepted, h1, h2, Bool.and_eq_true, decide_eq_true_eq]
  omega

theorem updateActivityState_blocked (d : Diagnostic_LED)
    (h : d.pendingActivity = .none ∨ (d.activity = .error ∧ d.errorReadoutStep ≠ 3)) :
    d.updateActivityState = d := by
  unfold Diagnostic_LED.updateActivityState
  rw [if_neg]
  rintro ⟨h1, h2⟩
  rcases h with h | ⟨ha, hs⟩
  · exact h1 h
  · rcases h2 with h2 | ⟨_, h2⟩
    · exact h2 ha
    · exact hs h2

theorem setDiagLED_eq (s : Bool) (d : Diagnostic_LED) :
    d.setDiagLED s =
      { d with diagLight := s, pinLevel := if d._invertOutput then !s else s } := by
  unfold Diagnostic_LED.setDiagLED
  cases h : d._invertOutput <;> simp [h]

theorem errorSwitch_activity (t : Nat) (d : Diagnostic_LED) :
    (d.errorSwitch t).activity = d.activity := by
  unfold Diagnostic_LED.errorSwitch
  simp only [setDiagLED_eq]
  repeat' split
  all_goals rfl

theorem errorSwitch_pendingActivity (t : Nat) (d : Diagnostic_LED) :
    (d.errorSwitch t).pendingActivity = d.pendingActivity := by
  unfold Diagnostic_LED.errorSwitch
  simp only [setDiagLED_eq]
  repeat' split
  all_goals rfl

theorem errorSwitch_errorCode (t : Nat) (d : Diagnostic_LED) :
    (d.errorSwitch t).errorCode = d.errorCode := by
  unfold Diagnostic_LED.errorSwitch
  simp only [setDiagLED_eq]
  repeat' split
  all_goals rfl

theorem activitySwitch_error (t : Nat) (d : Diagnostic_LED) (h : d.activity = .error) :
    d.activitySwitch t =
      if sub32 t d.activityLastCall ≥ 500 then
        Diagnostic_LED.errorSwitch t { d with activityLastCall := t }
      else d := by
  unfold Diagnostic_LED.activitySwitch
  rw [h]

theorem activitySwitch_manual (t : Nat) (d : Diagnostic_LED) (h : d.activity = .manual) :
    d.activitySwitch t = d := by
  unfold Diagnostic_LED.activitySwitch
  rw [h]

theorem update_eq (millis : Nat) (d : Diagnostic_LED) :
    d.update millis = d.updateActivityState.activitySwitch (millis % 2 ^ 32) := rfl

/-- While the object is in `error` and the arbitration test fails, a tick keeps
`activity`, `pendingActivity` and `errorCode`. -/
theorem update_error_blocked (millis : Nat) (d : Diagnostic_LED)
    (ha : d.activity = .error) (hs : d.errorReadoutStep ≠ 3) :
    (d.update millis).activity = .error ∧
      (d.update millis).pendingActivity = d.pendingActivity ∧
      (d.update millis).errorCode = d.errorCode := by
  rw [update_eq, updateActivityState_blocked d (Or.inr ⟨ha, hs⟩),
    activitySwitch_error _ _ ha]
  split
  · rw [errorSwitch_activity, errorSwitch_pendingActivity, errorSwitch_errorCode]
    exact ⟨ha, rfl, rfl⟩
  · exact ⟨ha, rfl, rfl⟩

theorem update_manual_idle (millis : Nat) (d : Diagnostic_LED)
    (ha : d.activity = .manual) (hp : d.pendingActivity = .none) :
    d.update millis = d := by
  rw [update_eq, updateActivityState_blocked d (Or.inl hp), activitySwitch_manual _ _ ha]

theorem updates_manual_idle (ts : List Nat) (d : Diagnostic_LED)
    (ha : d.activity = .manual) (hp : d.pendingActivity = .none) :
    d.updates ts = d := by
  induction ts with
  | nil => rfl
  | cons t ts ih =>
    simp only [Diagnostic_LED.updates, List.foldl_cons] at ih ⊢
    rw [update_manual_idle t d ha hp]
    exact ih

theorem updateActivityState_errorCode (d : Diagnostic_LED) :
    d.updateActivityState.errorCode = d.errorCode := by
  unfold Diagnostic_LED.updateActivityState
  simp only [setDiagLED_eq]
  split <;> rfl

theorem heartbeatSwitch_errorCode (t : Nat) (d : Diagnostic_LED) :
    (d.heartbeatSwitch t).errorCode = d.errorCode := by
  unfold Diagnostic_LED.heartbeatSwitch
  simp only [setDiagLED_eq]
  repeat' split
  all_goals rfl

theorem activitySwitch_errorCode (t : Nat) (d : Diagnostic_LED) :
    (d.activitySwitch t).errorCode = d.errorCode := by
  unfold Diagnostic_LED.activitySwitch
  simp only [setDiagLED_eq]
  repeat' split
  all_goals first
    | rfl
    | exact errorSwitch_errorCode _ _
    | exact heartbeatSwitch_errorCode _ _

theorem update_errorCode (millis : Nat) (d : Diagnostic_LED) :
    (d.update millis).errorCode = d.errorCode := by
  rw [update_eq, activitySwitch_errorCode, updateActivityState_errorCode]

/-- Every state of the error run is reached by public calls. -/
theorem errorRun_reachable (code n : Nat) (hc : code < 256) :
    Reachable (errorRun code n) := by
  induction n with
  | zero => exact Reachable.setErrorCode code hc (Reachable.construct 13 false (by decide))
  | succ n ih => exact Reachable.update (500 * n) ih

/-! ## Ticks at an unchanged clock -/

theorem sub32_same (t : Nat) : sub32 t t = 0 := by
  unfold sub32
  omega

theorem errorSwitch_activityLastCall (t : Nat) (d : Diagnostic_LED) :
    (d.errorSwitch t).activityLastCall = d.activityLastCall := by
  unfold Diagnostic_LED.errorSwitch
  simp only [setDiagLED_eq]
  repeat' split
  all_goals rfl

theorem heartbeatSwitch_activity (t : Nat) (d : Diagnostic_LED) :
    (d.heartbeatSwitch t).activity = d.activity := by
  unfold Diagnostic_LED.heartbeatSwitch
  simp only [setDiagLED_eq]
  repeat' split
  all_goals rfl

theorem heartbeatSwitch_pendingActivity (t : Nat) (d : Diagnostic_LED) :
    (d.heartbeatSwitch t).pendingActivity = d.pendingActivity := by
  unfold Diagnostic_LED.heartbeatSwitch
  simp only [setDiagLED_eq]
  repeat' split
  all_goals rfl

theorem heartbeatSwitch_activityLastCall (t : Nat) (d : Diagnostic_LED) :
    (d.heartbeatSwitch t).activityLastCall = d.activityLastCall := by
  unfold Diagnostic_LED.heartbeatSwitch
  simp only [setDiagLED_eq]
  repeat' split
  all_goals rfl

/-- The error switch reaches step 3 only from step 2 (or stays in step 3). -/
theorem errorSwitch_step_ne_three (t : Nat) (d : Diagnostic_LED)
    (h2 : d.errorReadoutStep ≠ 2) (h3 : d.errorReadoutStep ≠ 3) :
    (d.errorSwitch t).errorReadoutStep ≠ 3 := by
  unfold Diagnostic_LED.errorSwitch
  simp only [setDiagLED_eq]
  repeat' split
  all_goals simp_all [inc8]

theorem activitySwitch_activity (t : Nat) (d : Diagnostic_LED) :
    (d.activitySwitch t).activity = d.activity := by
  unfold Diagnostic_LED.activitySwitch
  simp only [setDiagLED_eq]
  repeat' split
  all_goals first
    | rfl
    | exact errorSwitch_activity _ _
    | exact heartbeatSwitch_activity _ _

theorem activitySwitch_pendingActivity (t : Nat) (d : Diagnostic_LED)
    (hn : d.activity ≠ .none) :
    (d.activitySwitch t).pendingActivity = d.pendingActivity := by
  unfold Diagnostic_LED.activitySwitch
  simp only [setDiagLED_eq]
  repeat' split
  all_goals first
    | rfl
    | exact errorSwitch_pendingActivity _ _
    | exact heartbeatSwitch_pendingActivity _ _
    | contradiction

/-- The switch on `activity`, run twice with the same clock value, does the
same as run once, unless the blink rate is 0. -/
theorem activitySwitch_idem (t : Nat) (d : Diagnostic_LED)
    (hn : d.activity ≠ .none) (hb : 0 < d.blinkRate) :
    (d.activitySwitch t).activitySwitch t = d.activitySwitch t := by
  cases ha : d.activity with
  | none => exact absurd ha hn
  | idle =>
    have h1 : ∀ e : Diagnostic_LED, e.activity = .idle → e.activitySwitch t =
        if e.diagLight ≠ DL_ON then e.setDiagLED DL_ON else e := by
      intro e he
      unfold Diagnostic_LED.activitySwitch
      rw [he]
    by_cases hc : d.diagLight ≠ DL_ON
    · rw [h1 d ha, if_pos hc, h1 _ (by simpa [setDiagLED_eq] using ha)]
      simp [setDiagLED_eq]
    · rw [h1 d ha, if_neg hc, h1 d ha, if_neg hc]
  | blink =>
    have h1 : ∀ e : Diagnostic_LED, e.activity = .blink → e.activitySwitch t =
        if sub32 t e.activityLastCall ≥ e.blinkRate then
          Diagnostic_LED.toggleDiagLED { e with activityLastCall := t }
        else e := by
      intro e he
      unfold Diagnostic_LED.activitySwitch
      rw [he]
    by_cases hc : sub32 t d.activityLastCall ≥ d.blinkRate
    · rw [h1 d ha, if_pos hc, h1 _ (by simpa [Diagnostic_LED.toggleDiagLED] using ha)]
      have : ¬ (sub32 t t ≥ d.blinkRate) := by
        rw [sub32_same]
        omega
      simp [Diagnostic_LED.toggleDiagLED, this]
    · rw [h1 d ha, if_neg hc, h1 d ha, if_neg hc]
  | heartbeat =>
    have h1 : ∀ e : Diagnostic_LED, e.activity = .heartbeat → e.activitySwitch t =
        if sub32 t e.activityLastCall ≥ 75 then
          Diagnostic_LED.heartbeatSwitch t { e with activityLastCall := t }
        else e := by
      intro e he
      unfold Diagnostic_LED.activitySwitch
      rw [he]
    by_cases hc : sub32 t d.activityLastCall ≥ 75
    · rw [h1 d ha, if_pos hc, h1 _ (by rw [heartbeatSwitch_activity]; exact ha),
        heartbeatSwitch_activityLastCall]
      simp [sub32_same]
    · rw [h1 d ha, if_neg hc, h1 d ha, if_neg hc]
  | manual =>
    rw [activitySwitch_manual t d ha, activitySwitch_manual t d ha]
  | error =>
    by_cases hc : sub32 t d.activityLastCall ≥ 500
    · rw [activitySwitch_error t d ha, if_pos hc,
        activitySwitch_error _ _ (by rw [errorSwitch_activity]; exact ha),
        errorSwitch_activityLastCall]
      simp [sub32_same]
    · rw [activitySwitch_error t d ha, if_neg hc, activitySwitch_error t d ha, if_neg hc]

theorem updateActivityState_blinkRate (d : Diagnostic_LED) :
    d.updateActivityState.blinkRate = d.blinkRate := by
  unfold Diagnostic_LED.updateActivityState
  simp only [setDiagLED_eq]
  split <;> rfl

/-- After `updateActivityState` either nothing is pending, or the object was
left as it was, in `error` away from step 3. -/
theorem updateActivityState_cases (d : Diagnostic_LED) :
    (d.updateActivityState.pendingActivity = .none ∧
        (d.pendingActivity ≠ .none → d.updateActivityState.activity = d.pendingActivity) ∧
        (d.pendingActivity = .none → d.updateActivityState.activity = d.activity)) ∨
      (d.updateActivityState = d ∧ d.pendingActivity ≠ .none ∧ d.activity = .error ∧
        d.errorReadoutStep ≠ 3) := by
  by_cases hp : d.pendingActivity = .none
  · left
    rw [updateActivityState_blocked d (Or.inl hp)]
    exact ⟨hp, fun h => absurd hp h, fun _ => rfl⟩
  · by_cases ha : d.activity = .error
    · by_cases hs : d.errorReadoutStep = 3
      · left
        unfold Diagnostic_LED.updateActivityState
        simp [setDiagLED_eq, hp, ha, hs]
      · right
        exact ⟨updateActivityState_blocked d (Or.inr ⟨ha, hs⟩), hp, ha, hs⟩
    · left
      unfold Diagnostic_LED.updateActivityState
      simp [setDiagLED_eq, hp, ha]

/-- After `updateActivityState` the activity is not `none`, if it was not. -/
theorem updateActivityState_activity_ne_none (d : Diagnostic_LED)
    (hn : d.activity ≠ .none) : d.updateActivityState.activity ≠ .none := by
  rcases updateActivityState_cases d with ⟨_, h2, h3⟩ | ⟨h1, _, _, _⟩
  · by_cases hp : d.pendingActivity = .none
    · rw [h3 hp]; exact hn
    · rw [h2 hp]; exact hp
  · rw [h1]; exact hn

theorem update_activity_ne_none (millis : Nat) (d : Diagnostic_LED)
    (hn : d.activity ≠ .none) : (d.update millis).activity ≠ .none := by
  rw [update_eq, activitySwitch_activity]
  exact updateActivityState_activity_ne_none d hn

/-- No public call stores `none` in `activity`. -/
theorem reachable_activity_ne_none {d : Diagnostic_LED} (hr : Reachable d) :
    d.activity ≠ .none := by
  induction hr with
  | construct _p _i _ =>
    simp [Diagnostic_LED.new, Diagnostic_LED.setActivity, setDiagLED_eq, memberInit]
  | update millis _ ih => exact update_activity_ne_none millis _ ih
  | setActivity s _ ih => exact ih
  | setErrorCode _ec _ _ ih =>
    unfold Diagnostic_LED.setErrorCode
    split
    · exact ih
    · exact ih
  | clearErrorCode _ ih => exact ih
  | set s _ =>
    simp [Diagnostic_LED.set, setDiagLED_eq]
  | resetActivity millis _ _ =>
    exact update_activity_ne_none millis _ (by simp)
  | setBlinkRate _ms _ _ ih => exact ih

/-- A second tick at the same clock value changes nothing, unless the blink
rate is 0 or the first tick takes an error readout with a request pending from
step 2 to step 3. -/
theorem update_update_same (d : Diagnostic_LED) (millis : Nat)
    (hn : d.activity ≠ .none) (hb : 0 < d.blinkRate)
    (hs : ¬ (d.activity = .error ∧ d.pendingActivity ≠ .none ∧ d.errorReadoutStep = 2)) :
    (d.update millis).update millis = d.update millis := by
  have hne := updateActivityState_activity_ne_none d hn
  have hblock : (d.update millis).updateActivityState = d.update millis := by
    apply updateActivityState_blocked
    rw [update_eq]
    rcases updateActivityState_cases d with ⟨h1, _, _⟩ | ⟨h1, h2, h3, h4⟩
    · left
      rw [activitySwitch_pendingActivity _ _ hne]
      exact h1
    · right
      rw [h1, activitySwitch_activity, activitySwitch_error _ _ h3]
      refine ⟨h3, ?_⟩
      split
      · exact errorSwitch_step_ne_three _ _ (fun h => hs ⟨h3, h2, h⟩) h4
      · exact h4
  rw [update_eq (d := d.update millis), hblock, update_eq]
  exact activitySwitch_idem _ _ hne (by rw [updateActivityState_blinkRate]; exact hb)

/-! ## The blink run -/

theorem activitySwitch_blink (t : Nat) (d : Diagnostic_LED) (h : d.activity = .blink) :
    d.activitySwitch t =
      if sub32 t d.activityLastCall ≥ d.blinkRate then
        Diagnostic_LED.toggleDiagLED { d with activityLastCall := t }
      else d := by
  unfold Diagnostic_LED.activitySwitch
  rw [h]

theorem blinkRun_zero (_p : Nat) (_i : Bool) :
    blinkRun _p _i 0 =
      { memberInit with
        _outputPin := _p, _invertOutput := _i, pinIsOutput := true,
        activity := .blink, pendingActivity := .none, diagLight := false,
        pinLevel := _i } := by
  cases _i <;>
  simp [blinkRun, Diagnostic_LED.new, Diagnostic_LED.update, Diagnostic_LED.updateActivity,
    Diagnostic_LED.updateActivityState, Diagnostic_LED.setActivity, setDiagLED_eq, memberInit,
    Diagnostic_LED.activitySwitch, sub32]
/-- What the blink run keeps true: the object blinks at the default rate, the
last toggle was at the last multiple of 500, and the light is on after an odd
number of toggles. -/
theorem blinkRun_inv (_p : Nat) (_i : Bool) (n : Nat) (hn : n < 2 ^ 32) :
    (blinkRun _p _i n).activity = .blink ∧
      (blinkRun _p _i n).pendingActivity = .none ∧
      (blinkRun _p _i n).blinkRate = 500 ∧
      (blinkRun _p _i n).activityLastCall = 500 * (n / 500) ∧
      (blinkRun _p _i n).diagLight = decide (n / 500 % 2 = 1) := by
  induction n with
  | zero =>
    rw [blinkRun_zero]
    exact ⟨rfl, rfl, rfl, rfl, rfl⟩
  | succ n ih =>
    obtain ⟨ha, hp, hr, hl, hd⟩ := ih (by omega)
    have hmod : (n + 1) % 2 ^ 32 = n + 1 := Nat.mod_eq_of_lt hn
    have hstep : blinkRun _p _i (n + 1) =
        if sub32 (n + 1) (blinkRun _p _i n).activityLastCall ≥ (blinkRun _p _i n).blinkRate then
          Diagnostic_LED.toggleDiagLED { blinkRun _p _i n with activityLastCall := n + 1 }
        else blinkRun _p _i n := by
      show (blinkRun _p _i n).update (n + 1) = _
      rw [update_eq, updateActivityState_blocked _ (Or.inl hp), hmod,
        activitySwitch_blink _ _ ha]
    have hsub : sub32 (n + 1) (500 * (n / 500)) = n + 1 - 500 * (n / 500) :=
      sub32_of_le hn (by omega)
    rw [hstep, hr, hl, hsub]
    by_cases hc : n + 1 - 500 * (n / 500) ≥ 500
    · rw [if_pos hc]
      refine ⟨ha, hp, hr, ?_, ?_⟩
      · show n + 1 = 500 * ((n + 1) / 500)
        omega
      · show (!(blinkRun _p _i n).diagLight) = decide ((n + 1) / 500 % 2 = 1)
        rw [hd]
        have : (n + 1) / 500 = n / 500 + 1 := by omega
        rw [this]
        by_cases h2 : n / 500 % 2 = 1
        · have h3 : ¬ ((n / 500 + 1) % 2 = 1) := by omega
          simp [h2, h3]
        · have h3 : (n / 500 + 1) % 2 = 1 := by omega
          simp [h2, h3]
    · rw [if_neg hc]
      have : (n + 1) / 500 = n / 500 := by omega
      rw [this]
      exact ⟨ha, hp, hr, hl, hd⟩

/-! ## The error readout, tick by tick -/

theorem shiftRight_four (x : Nat) : x >>> 4 = x / 16 := by
  simp [Nat.shiftRight_eq_div_pow]

theorem land_fifteen (x : Nat) : x &&& 0xF = x % 16 :=
  Nat.and_pow_two_sub_one_eq_mod x 4

theorem errorRun_one (code : Nat) (h : accepted code = true) :
    errorRun code 1 = errState code 0 0 0 false 0 := by
  simp [errorRun, Diagnostic_LED.setErrorCode, h, fresh, Diagnostic_LED.new,
    Diagnostic_LED.update, Diagnostic_LED.updateActivity, Diagnostic_LED.updateActivityState,
    Diagnostic_LED.setActivity, setDiagLED_eq, memberInit, Diagnostic_LED.activitySwitch,
    sub32, errState]

/-- A tick during the readout whose 500 ms test passes runs the error switch. -/
theorem update_errState (code last step count : Nat) (light : Bool) (ert t : Nat)
    (ht : t < 2 ^ 32) (hg : sub32 t last ≥ 500) :
    (errState code last step count light ert).update t =
      Diagnostic_LED.errorSwitch t (errState code t step count light ert) := by
  have hg' : sub32 t (errState code last step count light ert).activityLastCall ≥ 500 := hg
  rw [update_eq, updateActivityState_blocked _ (Or.inl rfl), Nat.mod_eq_of_lt ht,
    activitySwitch_error _ _ rfl, if_pos hg']
  rfl

theorem errorSwitch_step0_wait (code t count : Nat) (light : Bool) (ert : Nat)
    (h : sub32 t ert < 1000) :
    Diagnostic_LED.errorSwitch t (errState code t 0 count light ert) =
      errState code t 0 count light ert := by
  have h' : ¬ (sub32 t ert ≥ 1000) := by omega
  simp [Diagnostic_LED.errorSwitch, errState, h']

theorem errorSwitch_step0_go (code t count : Nat) (light : Bool) (ert : Nat)
    (h : sub32 t ert ≥ 1000) :
    Diagnostic_LED.errorSwitch t (errState code t 0 count light ert) =
      errState code t 1 count light t := by
  simp [Diagnostic_LED.errorSwitch, errState, h, inc8]

theorem errorSwitch_step1_on (code t count ert : Nat) (h : count < code / 16) :
    Diagnostic_LED.errorSwitch t (errState code t 1 count false ert) =
      errState code t 1 count true ert := by
  simp [Diagnostic_LED.errorSwitch, errState, shiftRight_four, h, setDiagLED_eq, fresh,
    Diagnostic_LED.new, Diagnostic_LED.setActivity, memberInit]

theorem errorSwitch_step1_off (code t count ert : Nat) (h : count < 255) :
    Diagnostic_LED.errorSwitch t (errState code t 1 count true ert) =
      errState code t 1 (count + 1) false ert := by
  have : (count + 1) % 256 = count + 1 := by omega
  simp [Diagnostic_LED.errorSwitch, errState, setDiagLED_eq, fresh,
    Diagnostic_LED.new, Diagnostic_LED.setActivity, memberInit, inc8, this]

theorem errorSwitch_step1_done (code t count ert : Nat) (h : ¬ count < code / 16) :
    Diagnostic_LED.errorSwitch t (errState code t 1 count false ert) =
      errState code t 2 0 false 0 := by
  simp [Diagnostic_LED.errorSwitch, errState, shiftRight_four, h, inc8]

theorem errorSwitch_step2_wait (code t count : Nat) (light : Bool) (ert : Nat)
    (h : sub32 t ert < 4000) :
    Diagnostic_LED.errorSwitch t (errState code t 2 count light ert) =
      errState code t 2 count light ert := by
  have h' : ¬ (sub32 t ert ≥ 4000) := by omega
  simp [Diagnostic_LED.errorSwitch, errState, h']

theorem errorSwitch_step2_go (code t count : Nat) (light : Bool) (ert : Nat)
    (h : sub32 t ert ≥ 4000) :
    Diagnostic_LED.errorSwitch t (errState code t 2 count light ert) =
      errState code t 3 0 light t := by
  simp [Diagnostic_LED.errorSwitch, errState, h, inc8]

theorem errorSwitch_step3_on (code t count ert : Nat) (h : count < code % 16) :
    Diagnostic_LED.errorSwitch t (errState code t 3 count false ert) =
      errState code t 3 count true ert := by
  simp [Diagnostic_LED.errorSwitch, errState, land_fifteen, h, setDiagLED_eq, fresh,
    Diagnostic_LED.new, Diagnostic_LED.setActivity, memberInit]

theorem errorSwitch_step3_off (code t count ert : Nat) (h : count < 255) :
    Diagnostic_LED.errorSwitch t (errState code t 3 count true ert) =
      errState code t 3 (count + 1) false ert := by
  have : (count + 1) % 256 = count + 1 := by omega
  simp [Diagnostic_LED.errorSwitch, errState, setDiagLED_eq, fresh,
    Diagnostic_LED.new, Diagnostic_LED.setActivity, memberInit, inc8, this]

theorem errorSwitch_step3_done (code t count ert : Nat) (h : ¬ count < code % 16) :
    Diagnostic_LED.errorSwitch t (errState code t 3 count false ert) =
      errState code t 4 0 false t := by
  simp [Diagnostic_LED.errorSwitch, errState, land_fifteen, h, inc8]

theorem errorSwitch_step4_wait (code t count : Nat) (light : Bool) (ert : Nat)
    (h : sub32 t ert < 5000) :
    Diagnostic_LED.errorSwitch t (errState code t 4 count light ert) =
      errState code t 4 count light ert := by
  have h' : ¬ (sub32 t ert ≥ 5000) := by omega
  simp [Diagnostic_LED.errorSwitch, errState, h']

theorem errorSwitch_step4_go (code t count : Nat) (light : Bool) (ert : Nat)
    (h : sub32 t ert ≥ 5000) :
    Diagnostic_LED.errorSwitch t (errState code t 4 count light ert) =
      errState code t 0 0 light t := by
  simp [Diagnostic_LED.errorSwitch, errState, h]

/-! ## One playback cycle in closed form -/

theorem cycleState_step0 (code T w j : Nat) (h : j < 2) :
    cycleState code T w j = errState code (T + 500 * j) 0 0 false T := by
  rw [cycleState, if_pos h]

theorem cycleState_step1 (code T w j : Nat) (h1 : 2 ≤ j) (h2 : j < 3 + 2 * (code / 16)) :
    cycleState code T w j =
      errState code (T + 500 * j) 1 ((j - 2) / 2) (decide ((j - 2) % 2 = 1)) (T + 1000) := by
  rw [cycleState, if_neg (by omega), if_pos h2]

theorem cycleState_step2 (code T w j : Nat) (h1 : 3 + 2 * (code / 16) ≤ j)
    (h2 : j < 4 + 2 * (code / 16) + w) :
    cycleState code T w j = errState code (T + 500 * j) 2 0 false 0 := by
  rw [cycleState, if_neg (by omega), if_neg (by omega), if_pos h2]

theorem cycleState_step3 (code T w j : Nat) (h1 : 4 + 2 * (code / 16) + w ≤ j)
    (h2 : j < 5 + 2 * (code / 16) + w + 2 * (code % 16)) :
    cycleState code T w j =
      errState code (T + 500 * j) 3 ((j - (4 + 2 * (code / 16) + w)) / 2)
        (decide ((j - (4 + 2 * (code / 16) + w)) % 2 = 1))
        (T + 500 * (4 + 2 * (code / 16) + w)) := by
  rw [cycleState, if_neg (by omega), if_neg (by omega), if_neg (by omega), if_pos h2]

theorem cycleState_step4 (code T w j : Nat)
    (h1 : 5 + 2 * (code / 16) + w + 2 * (code % 16) ≤ j)
    (h2 : j < 15 + 2 * (code / 16) + w + 2 * (code % 16)) :
    cycleState code T w j =
      errState code (T + 500 * j) 4 0 false
        (T + 500 * (5 + 2 * (code / 16) + w + 2 * (code % 16))) := by
  rw [cycleState, if_neg (by omega), if_neg (by omega), if_neg (by omega), if_neg (by omega),
    if_pos h2]

theorem cycleState_wrap (code T w j : Nat)
    (h1 : 15 + 2 * (code / 16) + w + 2 * (code % 16) ≤ j) :
    cycleState code T w j = errState code (T + 500 * j) 0 0 false (T + 500 * j) := by
  rw [cycleState, if_neg (by omega), if_neg (by omega), if_neg (by omega), if_neg (by omega),
    if_neg (by omega)]

/-- The closed form is right: one tick, 500 ms after the last, takes position
`j` of a cycle to position `j + 1`. Step 2 waits on the absolute clock (its
reference time is 0), so the number `w` of ticks it waits depends on `T`. -/
theorem cycleState_succ (code T w j : Nat) (hacc : accepted code = true)
    (hj : j < 15 + 2 * (code / 16) + w + 2 * (code % 16))
    (hT : T + 500 * (15 + 2 * (code / 16) + w + 2 * (code % 16)) < 2 ^ 32)
    (hw1 : w = 0 ∨ T + 500 * (3 + 2 * (code / 16) + w) < 4000)
    (hw2 : 4000 ≤ T + 500 * (4 + 2 * (code / 16) + w)) :
    (cycleState code T w j).update (T + 500 * (j + 1)) = cycleState code T w (j + 1) := by
  obtain ⟨⟨hh1, hh8⟩, hl1, hl8⟩ := (accepted_iff code).1 hacc
  have ht : T + 500 * (j + 1) < 2 ^ 32 := by omega
  have hg : sub32 (T + 500 * (j + 1)) (T + 500 * j) ≥ 500 := by
    rw [sub32_of_le ht (by omega)]
    omega
  by_cases c0 : j < 2
  · rw [cycleState_step0 _ _ _ _ c0, update_errState _ _ _ _ _ _ _ ht hg]
    by_cases c1 : j < 1
    · rw [cycleState_step0 _ _ _ _ (by omega),
        errorSwitch_step0_wait _ _ _ _ _ (by rw [sub32_of_le ht (by omega)]; omega)]
    · rw [cycleState_step1 _ _ _ _ (by omega) (by omega),
        errorSwitch_step0_go _ _ _ _ _ (by rw [sub32_of_le ht (by omega)]; omega)]
      have e1 : (j + 1 - 2) / 2 = 0 := by omega
      have e2 : ¬ ((j + 1 - 2) % 2 = 1) := by omega
      have e3 : T + 500 * (j + 1) = T + 1000 := by omega
      rw [e1, decide_eq_false e2, e3]
  · by_cases c2 : j < 3 + 2 * (code / 16)
    · rw [cycleState_step1 _ _ _ _ (by omega) c2, update_errState _ _ _ _ _ _ _ ht hg]
      by_cases p : (j - 2) % 2 = 1
      · -- the light is on: switch it off and count the pulse
        rw [decide_eq_true p, errorSwitch_step1_off _ _ _ _ (by omega),
          cycleState_step1 _ _ _ _ (by omega) (by omega)]
        have e1 : (j + 1 - 2) / 2 = (j - 2) / 2 + 1 := by omega
        have e2 : ¬ ((j + 1 - 2) % 2 = 1) := by omega
        rw [e1, decide_eq_false e2]
      · rw [decide_eq_false p]
        by_cases q : (j - 2) / 2 < code / 16
        · -- pulses left: switch the light on
          rw [errorSwitch_step1_on _ _ _ _ q, cycleState_step1 _ _ _ _ (by omega) (by omega)]
          have e1 : (j + 1 - 2) / 2 = (j - 2) / 2 := by omega
          have e2 : (j + 1 - 2) % 2 = 1 := by omega
          rw [e1, decide_eq_true e2]
        · -- all pulses made: go to step 2
          rw [errorSwitch_step1_done _ _ _ _ q, cycleState_step2 _ _ _ _ (by omega) (by omega)]
    · by_cases c3 : j < 4 + 2 * (code / 16) + w
      · rw [cycleState_step2 _ _ _ _ (by omega) c3, update_errState _ _ _ _ _ _ _ ht hg]
        by_cases c3' : j + 1 < 4 + 2 * (code / 16) + w
        · rw [cycleState_step2 _ _ _ _ (by omega) c3',
            errorSwitch_step2_wait _ _ _ _ _ (by rw [sub32_of_le ht (by omega)]; omega)]
        · rw [cycleState_step3 _ _ _ _ (by omega) (by omega),
            errorSwitch_step2_go _ _ _ _ _ (by rw [sub32_of_le ht (by omega)]; omega)]
          have e0 : j + 1 = 4 + 2 * (code / 16) + w := by omega
          have e1 : (j + 1 - (4 + 2 * (code / 16) + w)) / 2 = 0 := by omega
          have e2 : ¬ ((j + 1 - (4 + 2 * (code / 16) + w)) % 2 = 1) := by omega
          rw [e1, decide_eq_false e2, e0]
      · by_cases c4 : j < 5 + 2 * (code / 16) + w + 2 * (code % 16)
        · rw [cycleState_step3 _ _ _ _ (by omega) c4, update_errState _ _ _ _ _ _ _ ht hg]
          by_cases p : (j - (4 + 2 * (code / 16) + w)) % 2 = 1
          · rw [decide_eq_true p, errorSwitch_step3_off _ _ _ _ (by omega),
              cycleState_step3 _ _ _ _ (by omega) (by omega)]
            have e1 : (j + 1 - (4 + 2 * (code / 16) + w)) / 2 =
                (j - (4 + 2 * (code / 16) + w)) / 2 + 1 := by omega
            have e2 : ¬ ((j + 1 - (4 + 2 * (code / 16) + w)) % 2 = 1) := by omega
            rw [e1, decide_eq_false e2]
          · rw [decide_eq_false p]
            by_cases q : (j - (4 + 2 * (code / 16) + w)) / 2 < code % 16
            · rw [errorSwitch_step3_on _ _ _ _ q,
                cycleState_step3 _ _ _ _ (by omega) (by omega)]
              have e1 : (j + 1 - (4 + 2 * (code / 16) + w)) / 2 =
                  (j - (4 + 2 * (code / 16) + w)) / 2 := by omega
              have e2 : (j + 1 - (4 + 2 * (code / 16) + w)) % 2 = 1 := by omega
              rw [e1, decide_eq_true e2]
            · rw [errorSwitch_step3_done _ _ _ _ q,
                cycleState_step4 _ _ _ _ (by omega) (by omega)]
              have e0 : j + 1 = 5 + 2 * (code / 16) + w + 2 * (code % 16) := by omega
              rw [e0]
        · rw [cycleState_step4 _ _ _ _ (by omega) hj, update_errState _ _ _ _ _ _ _ ht hg]
          by_cases c5 : j + 1 < 15 + 2 * (code / 16) + w + 2 * (code % 16)
          · rw [cycleState_step4 _ _ _ _ (by omega) c5,
              errorSwitch_step4_wait _ _ _ _ _ (by rw [sub32_of_le ht (by omega)]; omega)]
          · rw [cycleState_wrap _ _ _ _ (by omega),
              errorSwitch_step4_go _ _ _ _ _ (by rw [sub32_of_le ht (by omega)]; omega)]

/-! ## The error run, cycle by cycle -/

theorem cycleState_obs (code T w j : Nat) :
    ((cycleState code T w j).errorReadoutStep, (cycleState code T w j).diagLight) =
      cycleObs (code / 16) (code % 16) w j := by
  unfold cycleState cycleObs
  split_ifs <;> rfl

theorem stepTwoWait_le (code c : Nat) : stepTwoWait code c ≤ 2 := by
  unfold stepTwoWait
  split <;> omega

theorem cycleStart_pos (code c : Nat) : 1 ≤ cycleStart code c := by
  induction c with
  | zero => exact Nat.le_refl 1
  | succ c ih =>
    show 1 ≤ cycleStart code c + cycleLength code c
    omega

theorem cycleStart_succ_ge (code c : Nat) : 16 ≤ cycleStart code (c + 1) := by
  have := cycleStart_pos code c
  show 16 ≤ cycleStart code c + cycleLength code c
  unfold cycleLength
  omega

/-- Throughout playback cycle `c` the error run is in the closed form. -/
theorem errorRun_cycle (code : Nat) (hacc : accepted code = true) (c : Nat) :
    500 * cycleStart code (c + 1) < 2 ^ 32 → ∀ j, j ≤ cycleLength code c →
      errorRun code (cycleStart code c + j) =
        cycleState code (500 * (cycleStart code c - 1)) (stepTwoWait code c) j := by
  obtain ⟨⟨hh1, hh8⟩, hl1, hl8⟩ := (accepted_iff code).1 hacc
  induction c with
  | zero =>
    intro hT j
    have hs : cycleStart code 0 = 1 := rfl
    have hlen : cycleStart code 1 = 1 + cycleLength code 0 := rfl
    rw [hs]
    induction j with
    | zero =>
      intro _
      rw [cycleState_step0 _ _ _ _ (by omega)]
      exact errorRun_one code hacc
    | succ j ih =>
      intro hj
      have hstep : errorRun code (1 + (j + 1)) = (errorRun code (1 + j)).update (500 * (1 + j)) :=
        rfl
      have e : 500 * (1 + j) = 500 * (1 - 1) + 500 * (j + 1) := by omega
      rw [hstep, ih (by omega), e]
      unfold cycleLength at hj hlen
      unfold stepTwoWait at hj hlen ⊢
      apply cycleState_succ _ _ _ _ hacc
      · split_ifs at hj ⊢ <;> omega
      · split_ifs at hlen ⊢ <;> omega
      · split_ifs <;> omega
      · split_ifs <;> omega
  | succ c ihc =>
    intro hT j
    have hpos := cycleStart_pos code c
    have hge := cycleStart_succ_ge code c
    have hs : cycleStart code (c + 1) = cycleStart code c + cycleLength code c := rfl
    have hlen : cycleStart code (c + 1 + 1) = cycleStart code (c + 1) + cycleLength code (c + 1) :=
      rfl
    have hw : stepTwoWait code (c + 1) = 0 := by
      unfold stepTwoWait
      rw [if_neg (by omega)]
    induction j with
    | zero =>
      intro _
      have h0 := ihc (by omega) (cycleLength code c) (Nat.le_refl _)
      rw [← hs] at h0
      rw [Nat.add_zero, h0,
        cycleState_step0 code (500 * (cycleStart code (c + 1) - 1)) _ 0 (by omega),
        cycleState_wrap code (500 * (cycleStart code c - 1)) (stepTwoWait code c)
          (cycleLength code c) (Nat.le_refl _)]
      unfold cycleLength
      have e : 500 * (cycleStart code c - 1) +
          500 * (15 + 2 * (code / 16) + stepTwoWait code c + 2 * (code % 16)) =
          500 * (cycleStart code (c + 1) - 1) := by
        rw [hs]
        unfold cycleLength
        omega
      rw [e]
      rfl
    | succ j ih =>
      intro hj
      have hstep : errorRun code (cycleStart code (c + 1) + (j + 1)) =
          (errorRun code (cycleStart code (c + 1) + j)).update
            (500 * (cycleStart code (c + 1) + j)) := rfl
      have e : 500 * (cycleStart code (c + 1) + j) =
          500 * (cycleStart code (c + 1) - 1) + 500 * (j + 1) := by omega
      rw [hstep, ih (by omega), e]
      unfold cycleLength at hj hlen
      rw [hw] at hj hlen ⊢
      apply cycleState_succ _ _ _ _ hacc
      · omega
      · omega
      · left; rfl
      · omega

set_option maxRecDepth 1000000 in
/-- The pulses of the closed form, counted: `h` pulses begin and end in step 1,
`l` pulses begin and end in step 3. -/
theorem cycleObs_pulses : ∀ h, h < 9 → ∀ l, l < 9 → ∀ w, w < 3 →
    (List.range (15 + 2 * h + w + 2 * l)).countP (fun j =>
        decide ((cycleObs h l w j).1 = 1) && !(cycleObs h l w j).2 &&
          (cycleObs h l w (j + 1)).2) = h ∧
    (List.range (15 + 2 * h + w + 2 * l)).countP (fun j =>
        decide ((cycleObs h l w j).1 = 1) && (cycleObs h l w j).2 &&
          !(cycleObs h l w (j + 1)).2) = h ∧
    (List.range (15 + 2 * h + w + 2 * l)).countP (fun j =>
        decide ((cycleObs h l w j).1 = 3) && !(cycleObs h l w j).2 &&
          (cycleObs h l w (j + 1)).2) = l ∧
    (List.range (15 + 2 * h + w + 2 * l)).countP (fun j =>
        decide ((cycleObs h l w j).1 = 3) && (cycleObs h l w j).2 &&
          !(cycleObs h l w (j + 1)).2) = l := by
  decide

theorem cycleObs_mono (h l w j : Nat) (hj : j + 1 < 15 + 2 * h + w + 2 * l) :
    (cycleObs h l w j).1 ≤ (cycleObs h l w (j + 1)).1 := by
  unfold cycleObs
  split_ifs <;> omega

theorem cycleObs_pause_off (h l w j : Nat) (h1 : (cycleObs h l w j).1 ≠ 1)
    (h3 : (cycleObs h l w j).1 ≠ 3) : (cycleObs h l w j).2 = false := by
  unfold cycleObs at h1 h3 ⊢
  split_ifs at h1 h3 ⊢ <;> simp_all

theorem cycleObs_ends (h l w : Nat) :
    (cycleObs h l w 0).1 = 0 ∧ (cycleObs h l w (15 + 2 * h + w + 2 * l - 1)).1 = 4 ∧
      (cycleObs h l w (15 + 2 * h + w + 2 * l)).1 = 0 := by
  unfold cycleObs
  refine ⟨?_, ?_, ?_⟩
  · simp
  · rw [if_neg (by omega), if_neg (by omega), if_neg (by omega), if_neg (by omega),
      if_pos (by omega)]
  · rw [if_neg (by omega), if_neg (by omega), if_neg (by omega), if_neg (by omega),
      if_neg (by omega)]

/-- What is seen of the error run during cycle `c` is the closed form. -/
theorem errorRun_obs (code : Nat) (hacc : accepted code = true) (c : Nat)
    (hT : 500 * cycleStart code (c + 1) < 2 ^ 32) (j : Nat) (hj : j ≤ cycleLength code c) :
    (errorRun code (cycleStart code c + j)).errorReadoutStep =
        (cycleObs (code / 16) (code % 16) (stepTwoWait code c) j).1 ∧
      (errorRun code (cycleStart code c + j)).diagLight =
        (cycleObs (code / 16) (code % 16) (stepTwoWait code c) j).2 := by
  rw [errorRun_cycle code hacc c hT j hj, ← cycleState_obs]
  exact ⟨rfl, rfl⟩

theorem countTicks_shift (p : Nat → Bool) (q : Nat → Bool) (a n : Nat)
    (h : ∀ j, j < n → p (a + j) = q j) :
    countTicks p a (a + n) = (List.range n).countP q := by
  unfold countTicks
  rw [Nat.add_sub_cancel_left, List.range'_eq_map_range, List.countP_map]
  apply List.countP_congr
  intro j hj
  rw [Function.comp_apply, h j (List.mem_range.1 hj)]

/-! ## Requests and their arbitration -/

theorem activitySwitch_idle (t : Nat) (d : Diagnostic_LED) (h : d.activity = .idle) :
    d.activitySwitch t = if d.diagLight ≠ DL_ON then d.setDiagLED DL_ON else d := by
  unfold Diagnostic_LED.activitySwitch
  rw [h]

/-- The arbitration applies every request made outside `error`. -/
theorem updateActivityState_applied (d : Diagnostic_LED)
    (hp : d.pendingActivity ≠ .none) (ha : d.activity ≠ .error) :
    d.updateActivityState =
      { d with
        activityLastCall := 0
        errorReadoutCount := 0
        errorReadoutStep := 0
        errorReadoutTime := 0
        diagLight := false
        pinLevel := if d._invertOutput then true else false
        activity := d.pendingActivity
        pendingActivity := .none } := by
  unfold Diagnostic_LED.updateActivityState
  rw [if_pos ⟨hp, Or.inl ha⟩]
  simp [setDiagLED_eq]

theorem heartbeatRun_reachable (n : Nat) : Reachable (heartbeatRun n) := by
  induction n with
  | zero =>
    exact Reachable.update 0
      (Reachable.setActivity .heartbeat (Reachable.construct 13 false (by decide)))
  | succ n ih => exact Reachable.update (75 * (n + 1)) ih

/-! ## The heartbeat, tick by tick -/

theorem activitySwitch_heartbeat (t : Nat) (d : Diagnostic_LED) (h : d.activity = .heartbeat) :
    d.activitySwitch t =
      if sub32 t d.activityLastCall ≥ 75 then
        Diagnostic_LED.heartbeatSwitch t { d with activityLastCall := t }
      else d := by
  unfold Diagnostic_LED.activitySwitch
  rw [h]

theorem heartbeatRun_zero : heartbeatRun 0 = hbState 0 0 false 0 := by
  simp [heartbeatRun, fresh, Diagnostic_LED.new, Diagnostic_LED.update,
    Diagnostic_LED.updateActivity, Diagnostic_LED.updateActivityState,
    Diagnostic_LED.setActivity, setDiagLED_eq, memberInit, Diagnostic_LED.activitySwitch,
    sub32, hbState]

/-- A tick during the heartbeat whose 75 ms test passes runs the heartbeat
switch. -/
theorem update_hbState (last step : Nat) (light : Bool) (hbt t : Nat)
    (ht : t < 2 ^ 32) (hg : sub32 t last ≥ 75) :
    (hbState last step light hbt).update t =
      Diagnostic_LED.heartbeatSwitch t (hbState t step light hbt) := by
  have hg' : sub32 t (hbState last step light hbt).activityLastCall ≥ 75 := hg
  rw [update_eq, updateActivityState_blocked _ (Or.inl rfl), Nat.mod_eq_of_lt ht,
    activitySwitch_heartbeat _ _ rfl, if_pos hg']
  rfl

theorem heartbeatSwitch_step0 (t : Nat) (light : Bool) (hbt : Nat) :
    Diagnostic_LED.heartbeatSwitch t (hbState t 0 light hbt) = hbState t 1 true hbt := by
  simp [Diagnostic_LED.heartbeatSwitch, hbState, setDiagLED_eq, fresh, Diagnostic_LED.new,
    Diagnostic_LED.setActivity, memberInit, inc8]

theorem heartbeatSwitch_step1 (t : Nat) (light : Bool) (hbt : Nat) :
    Diagnostic_LED.heartbeatSwitch t (hbState t 1 light hbt) = hbState t 2 false t := by
  simp [Diagnostic_LED.heartbeatSwitch, hbState, setDiagLED_eq, fresh, Diagnostic_LED.new,
    Diagnostic_LED.setActivity, memberInit, inc8]

theorem heartbeatSwitch_step2_wait (t : Nat) (light : Bool) (hbt : Nat)
    (h : sub32 t hbt < 200) :
    Diagnostic_LED.heartbeatSwitch t (hbState t 2 light hbt) = hbState t 2 light hbt := by
  have h' : ¬ (sub32 t hbt ≥ 200) := by omega
  simp [Diagnostic_LED.heartbeatSwitch, hbState, h']

theorem heartbeatSwitch_step2_go (t : Nat) (light : Bool) (hbt : Nat)
    (h : sub32 t hbt ≥ 200) :
    Diagnostic_LED.heartbeatSwitch t (hbState t 2 light hbt) = hbState t 3 light t := by
  simp [Diagnostic_LED.heartbeatSwitch, hbState, h, inc8]

theorem heartbeatSwitch_step3 (t : Nat) (light : Bool) (hbt : Nat) :
    Diagnostic_LED.heartbeatSwitch t (hbState t 3 light hbt) = hbState t 4 true hbt := by
  simp [Diagnostic_LED.heartbeatSwitch, hbState, setDiagLED_eq, fresh, Diagnostic_LED.new,
    Diagnostic_LED.setActivity, memberInit, inc8]

theorem heartbeatSwitch_step4 (t : Nat) (light : Bool) (hbt : Nat) :
    Diagnostic_LED.heartbeatSwitch t (hbState t 4 light hbt) = hbState t 5 false t := by
  simp [Diagnostic_LED.heartbeatSwitch, hbState, setDiagLED_eq, fresh, Diagnostic_LED.new,
    Diagnostic_LED.setActivity, memberInit, inc8]

theorem heartbeatSwitch_step5_wait (t : Nat) (light : Bool) (hbt : Nat)
    (h : sub32 t hbt < 2000) :
    Diagnostic_LED.heartbeatSwitch t (hbState t 5 light hbt) = hbState t 5 light hbt := by
  have h' : ¬ (sub32 t hbt ≥ 2000) := by omega
  simp [Diagnostic_LED.heartbeatSwitch, hbState, h']

theorem heartbeatSwitch_step5_go (t : Nat) (light : Bool) (hbt : Nat)
    (h : sub32 t hbt ≥ 2000) :
    Diagnostic_LED.heartbeatSwitch t (hbState t 5 light hbt) = hbState t 0 light t := by
  simp [Diagnostic_LED.heartbeatSwitch, hbState, h]

theorem heartbeatObs_wait2 (j : Nat) (h1 : 2 ≤ j) (h2 : j < 5) :
    heartbeatObs j = (2, false) := by
  rw [heartbeatObs, if_neg (by omega), if_neg (by omega), if_pos h2]

theorem heartbeatObs_wait5 (j : Nat) (h1 : 7 ≤ j) : heartbeatObs j = (5, false) := by
  rw [heartbeatObs, if_neg (by omega), if_neg (by omega), if_neg (by omega),
    if_neg (by omega), if_neg (by omega)]

theorem heartbeatRef_wait2 (j : Nat) (h1 : 2 ≤ j) (h2 : j < 5) : heartbeatRef j = 150 := by
  rw [heartbeatRef, if_neg (by omega), if_pos h2]

theorem heartbeatRef_wait5 (j : Nat) (h1 : 7 ≤ j) : heartbeatRef j = 525 := by
  rw [heartbeatRef, if_neg (by omega), if_neg (by omega), if_neg (by omega)]

/-- The closed form is right: the tick at `75 * (n + 1)` takes it from `n` to
`n + 1`. -/
theorem heartbeatClosed_succ (n : Nat) (hT : 75 * (n + 1) < 2 ^ 32) :
    (heartbeatClosed n).update (75 * (n + 1)) = heartbeatClosed (n + 1) := by
  have hg : sub32 (75 * (n + 1)) (75 * n) ≥ 75 := by
    rw [sub32_of_le hT (by omega)]
    omega
  have hj : n % 34 < 34 := Nat.mod_lt _ (by decide)
  rw [heartbeatClosed, update_hbState _ _ _ _ _ hT hg, heartbeatClosed]
  by_cases c0 : n % 34 = 0
  · have e : (n + 1) % 34 = 1 := by omega
    rw [c0, e]
    show Diagnostic_LED.heartbeatSwitch _ (hbState _ 0 false _) = hbState _ 1 true _
    rw [heartbeatSwitch_step0]
    congr 1
  by_cases c1 : n % 34 = 1
  · have e : (n + 1) % 34 = 2 := by omega
    rw [c1, e]
    show Diagnostic_LED.heartbeatSwitch _ (hbState _ 1 true _) = hbState _ 2 false _
    rw [heartbeatSwitch_step1]
    congr 1
    show 75 * (n + 1) = 75 * (n + 1 - 2) + 150
    omega
  by_cases c2 : n % 34 < 4
  · have e : (n + 1) % 34 = n % 34 + 1 := by omega
    rw [e, heartbeatObs_wait2 _ (by omega) (by omega), heartbeatObs_wait2 _ (by omega) (by omega),
      heartbeatRef_wait2 _ (by omega) (by omega), heartbeatRef_wait2 _ (by omega) (by omega),
      heartbeatSwitch_step2_wait _ _ _ (by rw [sub32_of_le hT (by omega)]; omega)]
    congr 1
    omega
  by_cases c4 : n % 34 = 4
  · have e : (n + 1) % 34 = 5 := by omega
    rw [c4, e]
    show Diagnostic_LED.heartbeatSwitch _ (hbState _ 2 false (75 * (n - 4) + 150)) =
      hbState _ 3 false _
    rw [heartbeatSwitch_step2_go _ _ _ (by rw [sub32_of_le hT (by omega)]; omega)]
    congr 1
    show 75 * (n + 1) = 75 * (n + 1 - 5) + 375
    omega
  by_cases c5 : n % 34 = 5
  · have e : (n + 1) % 34 = 6 := by omega
    rw [c5, e]
    show Diagnostic_LED.heartbeatSwitch _ (hbState _ 3 false _) = hbState _ 4 true _
    rw [heartbeatSwitch_step3]
    congr 1
  by_cases c6 : n % 34 = 6
  · have e : (n + 1) % 34 = 7 := by omega
    rw [c6, e]
    show Diagnostic_LED.heartbeatSwitch _ (hbState _ 4 true _) = hbState _ 5 false _
    rw [heartbeatSwitch_step4]
    congr 1
    show 75 * (n + 1) = 75 * (n + 1 - 7) + 525
    omega
  by_cases c7 : n % 34 < 33
  · have e : (n + 1) % 34 = n % 34 + 1 := by omega
    rw [e, heartbeatObs_wait5 _ (by omega), heartbeatObs_wait5 _ (by omega),
      heartbeatRef_wait5 _ (by omega), heartbeatRef_wait5 _ (by omega),
      heartbeatSwitch_step5_wait _ _ _ (by rw [sub32_of_le hT (by omega)]; omega)]
    congr 1
    omega
  · have e : (n + 1) % 34 = 0 := by omega
    rw [e, heartbeatObs_wait5 _ (by omega), heartbeatRef_wait5 _ (by omega),
      heartbeatSwitch_step5_go _ _ _ (by rw [sub32_of_le hT (by omega)]; omega)]
    show hbState _ 0 false _ = hbState _ 0 false (75 * (n + 1 - 0) + 0)
    congr 1

/-- The heartbeat run is the closed form, as long as the clock has not wrapped. -/
theorem heartbeatRun_closed (n : Nat) (hT : 75 * n < 2 ^ 32) :
    heartbeatRun n = heartbeatClosed n := by
  induction n with
  | zero => exact heartbeatRun_zero
  | succ n ih =>
    show (heartbeatRun n).update (75 * (n + 1)) = _
    rw [ih (by omega), heartbeatClosed_succ n hT]

theorem heartbeatObs_light (j : Nat) : (heartbeatObs j).2 = true ↔ j = 1 ∨ j = 6 := by
  unfold heartbeatObs
  split_ifs <;> simp <;> omega

theorem heartbeatObs_step (j : Nat) : (heartbeatObs j).1 = 0 ↔ j = 0 := by
  unfold heartbeatObs
  split_ifs <;> simp <;> omega

/-! ## The claims -/

/-- C1 (fails on the code): the codes `0x19` and `0x91` have both nibbles in
1..9, yet `setErrorCode` returns 0 for them and leaves the object as it was,
because the test of lines 80 and 82 is `< 9`. -/
theorem setErrorCode_rejects_nibble_nine (d : Diagnostic_LED) :
    (0x19 / 16 = 1 ∧ 0x19 % 16 = 9 ∧ 0x91 / 16 = 9 ∧ 0x91 % 16 = 1) ∧
      d.setErrorCode 0x19 = (0, d) ∧ d.setErrorCode 0x91 = (0, d) ∧
      (d.setErrorCode 0x19).2.readErrorCode = d.readErrorCode := by
  refine ⟨by decide, rfl, rfl, rfl⟩

/-- C2: a byte with a nibble outside 1..9 is rejected: `setErrorCode` returns 0
and the object is exactly as before the call. -/
theorem setErrorCode_invalid_noop (code : Nat) (d : Diagnostic_LED)
    (h : ¬ ((1 ≤ code / 16 ∧ code / 16 ≤ 9) ∧ (1 ≤ code % 16 ∧ code % 16 ≤ 9))) :
    d.setErrorCode code = (0, d) := by
  have hna : accepted code = false := by
    rw [← Bool.not_eq_true, accepted_iff]
    omega
  simp [Diagnostic_LED.setErrorCode, hna]

/-- The codes `0x00` and `0x1A` on a fresh object. -/
theorem setErrorCode_invalid_noop_witness :
    fresh.setErrorCode 0x00 = (0, fresh) ∧ fresh.setErrorCode 0x1A = (0, fresh) :=
  ⟨setErrorCode_invalid_noop 0x00 fresh (by decide),
    setErrorCode_invalid_noop 0x1A fresh (by decide)⟩

set_option maxRecDepth 100000 in
/-- C3 (fails on the code): the arbitration test of line 139 is
`errorReadoutStep == 3`. With code `0x23`, after the 16 ticks at 0..7500 both
nibbles are flashed and the readout is at step 4, yet a request for `idle` is
not applied by the next tick; after the 9 ticks at 0..4000 the readout is at
step 3 with no low-nibble pulse made, and the request is applied at once. -/
theorem arbitration_gate_at_step_three :
    ((errorRun 0x23 16).activity = .error ∧ (errorRun 0x23 16).errorReadoutStep = 4 ∧
      (((errorRun 0x23 16).setActivity .idle).update 8000).activity = .error ∧
      (((errorRun 0x23 16).setActivity .idle).update 8000).pendingActivity = .idle) ∧
    ((errorRun 0x23 9).activity = .error ∧ (errorRun 0x23 9).errorReadoutStep = 3 ∧
      (errorRun 0x23 9).errorReadoutCount = 0 ∧
      (((errorRun 0x23 9).setActivity .idle).update 4500).activity = .idle ∧
      (((errorRun 0x23 9).setActivity .idle).update 4500).pendingActivity = .none) := by
  decide

/-- C4 as stated fails: in `error` at step 0, `clearErrorCode()` and one tick
leave the object in `error`. -/
theorem clearErrorCode_deferred :
    (errorRun 0x23 1).activity = .error ∧ (errorRun 0x23 1).errorReadoutStep = 0 ∧
      ¬ (((errorRun 0x23 1).clearErrorCode.update 500).errorCode = 0 ∧
          ((errorRun 0x23 1).clearErrorCode.update 500).activity = .idle) := by
  decide

/-- C4, amended: in `error` with the readout at step 0, 1 or 2,
`clearErrorCode()` followed by one tick yields `errorCode = 0`, but the request
for `idle` passes through the same arbitration as any other: after the tick
the object is still in `error`, with the request still pending. -/
theorem clearErrorCode_then_update (d : Diagnostic_LED) (millis : Nat)
    (ha : d.activity = .error) (hs : d.errorReadoutStep < 3) :
    (d.clearErrorCode.update millis).errorCode = 0 ∧
      (d.clearErrorCode.update millis).activity = .error ∧
      (d.clearErrorCode.update millis).pendingActivity = .idle := by
  have hs3 : d.clearErrorCode.errorReadoutStep ≠ 3 := by
    show d.errorReadoutStep ≠ 3
    omega
  obtain ⟨h1, h2, h3⟩ := update_error_blocked millis d.clearErrorCode ha hs3
  exact ⟨h3, h1, h2⟩

/-- Code `0x23`, cleared right after the tick that entered `error`. -/
theorem clearErrorCode_then_update_witness :
    ((errorRun 0x23 1).clearErrorCode.update 500).errorCode = 0 ∧
      ((errorRun 0x23 1).clearErrorCode.update 500).activity = .error ∧
      ((errorRun 0x23 1).clearErrorCode.update 500).pendingActivity = .idle :=
  clearErrorCode_then_update (errorRun 0x23 1) 500 (by decide) (by decide)

/-- C5 as stated fails: the constructor leaves a request for `idle` pending;
`set(false)` followed by one tick ends in `idle` with the light on. -/
theorem set_overridden_by_pending :
    fresh.pendingActivity = .idle ∧
      ¬ (((fresh.set false).update 0).activity = .manual ∧
          ((fresh.set false).update 0).diagLight = false) := by
  decide

/-- C5, amended: right after `set(s)`, in any state, `activity` is `manual` and
the logical output is `s`; and when no request is pending at the call, they
are still so after any number of ticks. -/
theorem set_manual_persists (d : Diagnostic_LED) (s : Bool) :
    (d.set s).activity = .manual ∧ (d.set s).diagLight = s ∧
      (d.pendingActivity = .none → ∀ ts : List Nat,
        ((d.set s).updates ts).activity = .manual ∧
        ((d.set s).updates ts).diagLight = s) := by
  have ha : (d.set s).activity = .manual := by
    simp [Diagnostic_LED.set, setDiagLED_eq]
  have hl : (d.set s).diagLight = s := by
    simp [Diagnostic_LED.set, setDiagLED_eq]
  refine ⟨ha, hl, fun hp ts => ?_⟩
  have hp2 : (d.set s).pendingActivity = .none := by
    simpa [Diagnostic_LED.set, setDiagLED_eq] using hp
  rw [updates_manual_idle ts _ ha hp2]
  exact ⟨ha, hl⟩

/-- A fresh object after its first tick, `set(false)`, then three ticks. -/
theorem set_manual_persists_witness :
    ((fresh.update 0).set false).activity = .manual ∧
      ((fresh.update 0).set false).diagLight = false ∧
      (((fresh.update 0).set false).updates [10, 20, 5000]).activity = .manual ∧
      (((fresh.update 0).set false).updates [10, 20, 5000]).diagLight = false :=
  ⟨(set_manual_persists (fresh.update 0) false).1,
    (set_manual_persists (fresh.update 0) false).2.1,
    (set_manual_persists (fresh.update 0) false).2.2 (by decide) [10, 20, 5000]⟩

set_option maxRecDepth 100000 in
/-- C6 as stated fails. The object `pendingAtStepTwo` is reached by public calls
with the default blink rate: an error readout at step 2 with a request pending.
The tick at 4000 moves the readout to step 3, and a second tick at 4000 then
applies the request. The object `zeroRateBlink` is reached after
`setBlinkRate(0)`: each tick toggles the light, also at an unchanged clock. -/
theorem update_twice_differs :
    (Reachable pendingAtStepTwo ∧
      (pendingAtStepTwo.update 4000).update 4000 ≠ pendingAtStepTwo.update 4000 ∧
      (pendingAtStepTwo.update 4000).activity = .error ∧
      ((pendingAtStepTwo.update 4000).update 4000).activity = .idle) ∧
    (Reachable zeroRateBlink ∧
      (zeroRateBlink.update 5).update 5 ≠ zeroRateBlink.update 5 ∧
      (zeroRateBlink.update 5).diagLight = false ∧
      ((zeroRateBlink.update 5).update 5).diagLight = true) := by
  have h1 : (pendingAtStepTwo.update 4000).activity = .error := by decide
  have h2 : ((pendingAtStepTwo.update 4000).update 4000).activity = .idle := by decide
  have h3 : (zeroRateBlink.update 5).diagLight = false := by decide
  have h4 : ((zeroRateBlink.update 5).update 5).diagLight = true := by decide
  refine ⟨⟨Reachable.setActivity .idle (errorRun_reachable 0x11 8 (by decide)), ?_, h1, h2⟩,
    ⟨Reachable.update 0 (Reachable.setActivity .blink (Reachable.setBlinkRate 0 (by decide)
      (Reachable.construct 13 false (by decide)))), ?_, h3, h4⟩⟩
  · intro h
    rw [h, h1] at h2
    exact absurd h2 (by decide)
  · intro h
    rw [h, h3] at h4
    exact absurd h4 (by decide)

/-- C6, amended: for every state reached by public calls whose blink rate is not
0, except an error readout at step 2 or 3 with a request pending, a second tick
at the same timestamp changes nothing. -/
theorem update_idem (d : Diagnostic_LED) (millis : Nat) (hr : Reachable d)
    (hb : 0 < d.blinkRate)
    (hs : ¬ (d.activity = .error ∧ d.pendingActivity ≠ .none ∧
      (d.errorReadoutStep = 2 ∨ d.errorReadoutStep = 3))) :
    (d.update millis).update millis = d.update millis :=
  update_update_same d millis (reachable_activity_ne_none hr) hb
    (fun h => hs ⟨h.1, h.2.1, Or.inl h.2.2⟩)

set_option maxRecDepth 100000 in
/-- The readout of `0x23` at step 1, ticked twice at 1500. -/
theorem update_idem_witness :
    ((errorRun 0x23 3).update 1500).update 1500 = (errorRun 0x23 3).update 1500 :=
  update_idem (errorRun 0x23 3) 1500 (errorRun_reachable 0x23 3 (by decide)) (by decide)
    (by decide)

/-- C7 (fails on the code): `toggleDiagLED` writes `diagLight` to the pin
without the inversion that `setDiagLED` applies. On an object constructed
with `DL_INVERT_OUTPUT`, the first toggle of `blink` leaves the pin at the
same level as the logical state. -/
theorem toggleDiagLED_skips_inversion :
    Reachable invertedBlink ∧ invertedBlink._invertOutput = true ∧
      invertedBlink.diagLight = true ∧ invertedBlink.pinLevel = true ∧
      invertedBlink.pinLevel ≠ xor invertedBlink.diagLight invertedBlink._invertOutput :=
  ⟨Reachable.update 500 (Reachable.setActivity .blink (Reachable.construct 13 true (by decide))),
    by decide, by decide, by decide, by decide⟩

/-- C8: in the blink run (default rate 500, transition applied by the tick at 0,
then a tick at every millisecond), the tick at `t = n + 1` flips the logical
output exactly when `t` is a multiple of 500. -/
theorem blink_toggles_at_multiples (_p : Nat) (_i : Bool) (n : Nat) (hn : n + 1 < 2 ^ 32) :
    (blinkRun _p _i (n + 1)).diagLight ≠ (blinkRun _p _i n).diagLight ↔ 500 ∣ n + 1 := by
  obtain ⟨_, _, _, _, h1⟩ := blinkRun_inv _p _i (n + 1) hn
  obtain ⟨_, _, _, _, h0⟩ := blinkRun_inv _p _i n (by omega)
  rw [h1, h0]
  by_cases hd : 500 ∣ n + 1
  · have e : (n + 1) / 500 = n / 500 + 1 := by omega
    rw [e]
    by_cases h2 : n / 500 % 2 = 1
    · have h3 : ¬ ((n / 500 + 1) % 2 = 1) := by omega
      simp [h2, h3, hd]
    · have h3 : (n / 500 + 1) % 2 = 1 := by omega
      simp [h2, h3, hd]
  · have e : (n + 1) / 500 = n / 500 := by omega
    rw [e]
    simp [hd]

/-- The tick at 500 flips the light, the tick at 123 does not. -/
theorem blink_toggles_at_multiples_witness :
    (blinkRun 13 false 500).diagLight ≠ (blinkRun 13 false 499).diagLight ∧
      ¬ ((blinkRun 13 false 123).diagLight ≠ (blinkRun 13 false 122).diagLight) :=
  ⟨(blink_toggles_at_multiples 13 false 499 (by decide)).2 (by decide),
    fun h => absurd ((blink_toggles_at_multiples 13 false 122 (by decide)).1 h) (by decide)⟩

/-- C9: the error readout of an accepted code on a fresh object, ticked at
0, 500, 1000, ... In every playback cycle `c` (the states number
`cycleStart code c` to `cycleStart code (c + 1)` of the run, from one entry into
step 0 to the next, the step never going back in between), the light is
switched on `code / 16` times and off `code / 16` times in step 1, on and off
`code % 16` times in step 3, and it is off in the steps 0, 2 and 4. -/
theorem error_readout_pulse_counts (code c : Nat) (hacc : accepted code = true)
    (hT : 500 * cycleStart code (c + 1) < 2 ^ 32) :
    ((errorRun code (cycleStart code c)).errorReadoutStep = 0 ∧
      (errorRun code (cycleStart code (c + 1) - 1)).errorReadoutStep = 4 ∧
      (errorRun code (cycleStart code (c + 1))).errorReadoutStep = 0 ∧
      ∀ k, cycleStart code c ≤ k → k + 1 < cycleStart code (c + 1) →
        (errorRun code k).errorReadoutStep ≤ (errorRun code (k + 1)).errorReadoutStep) ∧
    (countTicks (pulseStartsAt code 1) (cycleStart code c) (cycleStart code (c + 1)) = code / 16 ∧
      countTicks (pulseEndsAt code 1) (cycleStart code c) (cycleStart code (c + 1)) = code / 16 ∧
      countTicks (pulseStartsAt code 3) (cycleStart code c) (cycleStart code (c + 1)) = code % 16 ∧
      countTicks (pulseEndsAt code 3) (cycleStart code c) (cycleStart code (c + 1)) = code % 16) ∧
    (∀ k, cycleStart code c ≤ k → k ≤ cycleStart code (c + 1) →
      (errorRun code k).errorReadoutStep = 0 ∨ (errorRun code k).errorReadoutStep = 2 ∨
        (errorRun code k).errorReadoutStep = 4 →
      (errorRun code k).diagLight = false) := by
  obtain ⟨⟨hh1, hh8⟩, hl1, hl8⟩ := (accepted_iff code).1 hacc
  have hw := stepTwoWait_le code c
  have hs : cycleStart code (c + 1) = cycleStart code c + cycleLength code c := rfl
  have hlen : cycleLength code c =
      15 + 2 * (code / 16) + stepTwoWait code c + 2 * (code % 16) := rfl
  have hobs := errorRun_obs code hacc c hT
  obtain ⟨e0, e1, e2⟩ := cycleObs_ends (code / 16) (code % 16) (stepTwoWait code c)
  obtain ⟨p1, p2, p3, p4⟩ := cycleObs_pulses (code / 16) (by omega) (code % 16) (by omega)
    (stepTwoWait code c) (by omega)
  refine ⟨⟨?_, ?_, ?_, ?_⟩, ⟨?_, ?_, ?_, ?_⟩, ?_⟩
  · rw [← Nat.add_zero (cycleStart code c), (hobs 0 (by omega)).1]
    exact e0
  · have e : cycleStart code (c + 1) - 1 = cycleStart code c + (cycleLength code c - 1) := by
      omega
    rw [e, (hobs _ (by omega)).1, hlen]
    exact e1
  · rw [hs, (hobs _ (Nat.le_refl _)).1, hlen]
    exact e2
  · intro k hk1 hk2
    obtain ⟨j, rfl⟩ : ∃ j, k = cycleStart code c + j := ⟨k - cycleStart code c, by omega⟩
    rw [Nat.add_assoc, (hobs j (by omega)).1, (hobs (j + 1) (by omega)).1]
    exact cycleObs_mono _ _ _ _ (by omega)
  · rw [hs, hlen, countTicks_shift _ _ _ _ _, p1]
    intro j hj
    unfold pulseStartsAt
    rw [Nat.add_assoc, (hobs j (by omega)).1, (hobs j (by omega)).2, (hobs (j + 1) (by omega)).2]
  · rw [hs, hlen, countTicks_shift _ _ _ _ _, p2]
    intro j hj
    unfold pulseEndsAt
    rw [Nat.add_assoc, (hobs j (by omega)).1, (hobs j (by omega)).2, (hobs (j + 1) (by omega)).2]
  · rw [hs, hlen, countTicks_shift _ _ _ _ _, p3]
    intro j hj
    unfold pulseStartsAt
    rw [Nat.add_assoc, (hobs j (by omega)).1, (hobs j (by omega)).2, (hobs (j + 1) (by omega)).2]
  · rw [hs, hlen, countTicks_shift _ _ _ _ _, p4]
    intro j hj
    unfold pulseEndsAt
    rw [Nat.add_assoc, (hobs j (by omega)).1, (hobs j (by omega)).2, (hobs (j + 1) (by omega)).2]
  · intro k hk1 hk2 hst
    obtain ⟨j, rfl⟩ : ∃ j, k = cycleStart code c + j := ⟨k - cycleStart code c, by omega⟩
    rw [(hobs j (by omega)).1] at hst
    rw [(hobs j (by omega)).2]
    exact cycleObs_pause_off _ _ _ _ (by omega) (by omega)

/-- Code `0x23`: two and three pulses in the first cycle (states 1 to 26) and in
the second (states 26 to 51). -/
theorem error_readout_pulse_counts_witness :
    (countTicks (pulseStartsAt 0x23 1) 1 26 = 2 ∧ countTicks (pulseEndsAt 0x23 1) 1 26 = 2 ∧
      countTicks (pulseStartsAt 0x23 3) 1 26 = 3 ∧ countTicks (pulseEndsAt 0x23 3) 1 26 = 3) ∧
    (countTicks (pulseStartsAt 0x23 1) 26 51 = 2 ∧ countTicks (pulseEndsAt 0x23 1) 26 51 = 2 ∧
      countTicks (pulseStartsAt 0x23 3) 26 51 = 3 ∧ countTicks (pulseEndsAt 0x23 3) 26 51 = 3) :=
  ⟨(error_readout_pulse_counts 0x23 0 (by decide) (by decide)).2.1,
    (error_readout_pulse_counts 0x23 1 (by decide) (by decide)).2.1⟩

set_option maxRecDepth 100000 in
/-- C10 (fails on the code): leaving step 1, line 264 stores 0 in
`errorReadoutTime`, not the current time. With code `0x23` the tick at 3500
moves the readout from step 1 to step 2 and the tick at 4000 moves it on to
step 3; the light, off since the tick at 3000, is on again at 4500. -/
theorem inter_nibble_pause_cut_short :
    ((errorRun 0x23 7).errorReadoutStep = 1 ∧ (errorRun 0x23 7).diagLight = false ∧
      (errorRun 0x23 7).errorReadoutCount = 2) ∧
    ((errorRun 0x23 8).errorReadoutStep = 2 ∧ (errorRun 0x23 8).errorReadoutTime = 0) ∧
    (errorRun 0x23 9).errorReadoutStep = 3 ∧
    (errorRun 0x23 10).diagLight = true ∧
    500 * 8 - 500 * 7 < 4000 := by
  decide

/-- C11 as stated fails: on an object that never saw `setErrorCode` (its
`errorCode` is 0), `setActivity(error)` followed by a tick enters `error`. -/
theorem setActivity_error_enters_error :
    (fresh.update 0).activity = .idle ∧ (fresh.update 0).errorCode = 0 ∧
      (errorRequested.update 100).activity = .error ∧
      (errorRequested.update 100).errorCode = 0 := by
  decide

/-- C11, amended: `setActivity` takes `error` like any other value. Outside
`error`, `setActivity(error)` followed by a tick enters `error`, consumes the
request and leaves `errorCode` as it was. -/
theorem setActivity_error_then_update (d : Diagnostic_LED) (millis : Nat)
    (ha : d.activity ≠ .error) :
    ((d.setActivity .error).update millis).activity = .error ∧
      ((d.setActivity .error).update millis).pendingActivity = .none ∧
      ((d.setActivity .error).update millis).errorCode = d.errorCode := by
  have hp : (d.setActivity .error).pendingActivity ≠ .none := by
    simp [Diagnostic_LED.setActivity]
  have h := updateActivityState_applied (d.setActivity .error) hp ha
  have hact : (d.setActivity .error).updateActivityState.activity = .error := by
    rw [h]; rfl
  refine ⟨?_, ?_, ?_⟩
  · rw [update_eq, activitySwitch_activity, hact]
  · rw [update_eq, activitySwitch_pendingActivity _ _ (by rw [hact]; decide), h]
  · rw [update_errorCode]; rfl

/-- A fresh object after its first tick, asked for `error` at 100. -/
theorem setActivity_error_then_update_witness :
    (((fresh.update 0).setActivity .error).update 100).activity = .error ∧
      (((fresh.update 0).setActivity .error).update 100).pendingActivity = .none ∧
      (((fresh.update 0).setActivity .error).update 100).errorCode = (fresh.update 0).errorCode :=
  setActivity_error_then_update (fresh.update 0) 100 (by decide)

/-- C12 as stated fails: with a request for `blink` pending, the tick inside
`resetActivity()` applies it, and the object returns blinking with the light
off. -/
theorem resetActivity_applies_pending :
    blinkRequested.pendingActivity = .blink ∧
      (blinkRequested.resetActivity 10).activity = .blink ∧
      (blinkRequested.resetActivity 10).diagLight = false := by
  decide

/-- C12, amended: when no request is pending, or the pending request is for
`idle`, the object is in `idle` with the light on after `resetActivity()`. -/
theorem resetActivity_idle (d : Diagnostic_LED) (millis : Nat)
    (hp : d.pendingActivity = .none ∨ d.pendingActivity = .idle) :
    (d.resetActivity millis).activity = .idle ∧
      (d.resetActivity millis).diagLight = true := by
  have hidle : ∀ e : Diagnostic_LED, e.activity = .idle →
      (e.activitySwitch (millis % 2 ^ 32)).activity = .idle ∧
        (e.activitySwitch (millis % 2 ^ 32)).diagLight = true := by
    intro e he
    rw [activitySwitch_idle _ _ he]
    by_cases hc : e.diagLight ≠ DL_ON
    · rw [if_pos hc, setDiagLED_eq]
      exact ⟨he, rfl⟩
    · rw [if_neg hc]
      exact ⟨he, by simpa using hc⟩
  unfold Diagnostic_LED.resetActivity
  rw [update_eq]
  apply hidle
  rcases hp with hp | hp
  · have hb := updateActivityState_blocked { d with activity := .idle } (Or.inl hp)
    rw [hb]
  · have hne : d.pendingActivity ≠ .none := by rw [hp]; decide
    have hb := updateActivityState_applied { d with activity := .idle } hne
      (fun h => ActivityStates.noConfusion h)
    rw [hb]
    exact hp

/-- An error readout of `0x23` in progress, left by `resetActivity()`. -/
theorem resetActivity_idle_witness :
    ((errorRun 0x23 5).resetActivity 2100).activity = .idle ∧
      ((errorRun 0x23 5).resetActivity 2100).diagLight = true :=
  resetActivity_idle (errorRun 0x23 5) 2100 (Or.inl (by decide))

/-- C13: no state reached by public calls has `activity = none`, and
`setActivity(none)` followed by a tick leaves `activity` as it was. -/
theorem activity_never_none (d : Diagnostic_LED) (hr : Reachable d) :
    d.activity ≠ .none ∧
      ∀ millis : Nat, ((d.setActivity .none).update millis).activity = d.activity := by
  refine ⟨reachable_activity_ne_none hr, fun millis => ?_⟩
  rw [update_eq, activitySwitch_activity, updateActivityState_blocked _ (Or.inl rfl)]
  rfl

set_option maxRecDepth 100000 in
/-- An error readout in progress and a request for `none`. -/
theorem activity_never_none_witness :
    (errorRun 0x23 5).activity ≠ .none ∧
      (((errorRun 0x23 5).setActivity .none).update 2500).activity = (errorRun 0x23 5).activity :=
  ⟨(activity_never_none (errorRun 0x23 5) (errorRun_reachable 0x23 5 (by decide))).1,
    (activity_never_none (errorRun 0x23 5) (errorRun_reachable 0x23 5 (by decide))).2 2500⟩

/-- C14: right after the constructor, on any pin and with either inversion
flag, `activity` is `idle` and the logical output is on; after the first tick,
at any time, `activity` is `idle`, nothing is pending and the output is on. -/
theorem constructed_idle_on (_p : Nat) (_i : Bool) (millis : Nat) :
    ((Diagnostic_LED.new _p _i).activity = .idle ∧
      (Diagnostic_LED.new _p _i).diagLight = true) ∧
    (((Diagnostic_LED.new _p _i).update millis).activity = .idle ∧
      ((Diagnostic_LED.new _p _i).update millis).pendingActivity = .none ∧
      ((Diagnostic_LED.new _p _i).update millis).diagLight = true) := by
  cases _i <;>
  simp [Diagnostic_LED.new, Diagnostic_LED.update, Diagnostic_LED.updateActivity,
    Diagnostic_LED.updateActivityState, Diagnostic_LED.setActivity, setDiagLED_eq, memberInit,
    Diagnostic_LED.activitySwitch]

set_option maxRecDepth 100000 in
/-- C15 (fails on the code): `updateActivityState` zeroes `activityLastCall` and
the three error counters, but not `heartbeatStep` and `heartbeatTime`. The
object `heartbeatResumed` is reached by public calls; its request for
`heartbeat` is accepted, and right after the arbitration the heartbeat is at
step 2 with reference time 150, where it was left. -/
theorem arbitration_keeps_heartbeat_counters :
    Reachable heartbeatResumed ∧
      (heartbeatResumed.pendingActivity = .heartbeat ∧ heartbeatResumed.activity = .idle) ∧
      (heartbeatResumed.updateActivityState.activity = .heartbeat ∧
        heartbeatResumed.updateActivityState.pendingActivity = .none) ∧
      (heartbeatResumed.updateActivityState.heartbeatStep = 2 ∧
        heartbeatResumed.updateActivityState.heartbeatTime = 150) ∧
      (heartbeatResumed.updateActivityState.activityLastCall = 0 ∧
        heartbeatResumed.updateActivityState.errorReadoutStep = 0 ∧
        heartbeatResumed.updateActivityState.errorReadoutCount = 0 ∧
        heartbeatResumed.updateActivityState.errorReadoutTime = 0) :=
  ⟨Reachable.setActivity .heartbeat
      (Reachable.update 300 (Reachable.setActivity .idle (heartbeatRun_reachable 3))),
    by decide, by decide, by decide, by decide⟩

/-- C16: outside `error`, a tick of a state reached by public calls leaves
nothing pending, and `activity` is the request that was pending, or is
unchanged when none was. -/
theorem update_consumes_request (d : Diagnostic_LED) (millis : Nat) (hr : Reachable d)
    (ha : d.activity ≠ .error) :
    (d.update millis).pendingActivity = .none ∧
      (d.update millis).activity =
        if d.pendingActivity ≠ .none then d.pendingActivity else d.activity := by
  have hne := updateActivityState_activity_ne_none d (reachable_activity_ne_none hr)
  rw [update_eq, activitySwitch_activity, activitySwitch_pendingActivity _ _ hne]
  by_cases hp : d.pendingActivity = .none
  · rw [updateActivityState_blocked d (Or.inl hp), if_neg (not_not.2 hp)]
    exact ⟨hp, rfl⟩
  · rw [updateActivityState_applied d hp ha, if_pos hp]
    exact ⟨rfl, rfl⟩

/-- A heartbeat in progress with a request for `blink`, and with none. -/
theorem update_consumes_request_witness :
    ((((heartbeatRun 3).setActivity .blink).update 300).pendingActivity = .none ∧
      (((heartbeatRun 3).setActivity .blink).update 300).activity = .blink) ∧
    (((heartbeatRun 3).update 300).pendingActivity = .none ∧
      ((heartbeatRun 3).update 300).activity = .heartbeat) :=
  ⟨update_consumes_request ((heartbeatRun 3).setActivity .blink) 300
      (Reachable.setActivity .blink (heartbeatRun_reachable 3)) (by decide),
    update_consumes_request (heartbeatRun 3) 300 (heartbeatRun_reachable 3) (by decide)⟩

/-- C17: the heartbeat on a fresh object, entered by the tick at 0 and ticked
every 75 ms. The output repeats with a period of 34 ticks: it is on after the
ticks number 1 and 6 of each period and off after all others, so each pulse
lasts one tick, the light is then off for 4 ticks (300 ms) after the first
pulse and for 28 ticks (2100 ms) after the second; the heartbeat is at step 0
exactly at the start of each period. -/
theorem heartbeat_waveform (n : Nat) (hT : 75 * n < 2 ^ 32) :
    ((heartbeatRun n).diagLight = true ↔ n % 34 = 1 ∨ n % 34 = 6) ∧
      ((heartbeatRun n).heartbeatStep = 0 ↔ n % 34 = 0) ∧
      (200 ≤ 75 * (6 - 2) ∧ 2000 ≤ 75 * (34 + 1 - 7)) := by
  rw [heartbeatRun_closed n hT]
  exact ⟨heartbeatObs_light _, heartbeatObs_step _, by decide, by decide⟩

/-- The light is on after the ticks at 75, 450 and 2625, off after the tick at
150, and the tick at 2550 is back at step 0. -/
theorem heartbeat_waveform_witness :
    (heartbeatRun 1).diagLight = true ∧ (heartbeatRun 6).diagLight = true ∧
      (heartbeatRun 35).diagLight = true ∧ ¬ (heartbeatRun 2).diagLight = true ∧
      (heartbeatRun 34).heartbeatStep = 0 :=
  ⟨(heartbeat_waveform 1 (by decide)).1.2 (Or.inl rfl),
    (heartbeat_waveform 6 (by decide)).1.2 (Or.inr rfl),
    (heartbeat_waveform 35 (by decide)).1.2 (Or.inl rfl),
    fun h => absurd ((heartbeat_waveform 2 (by decide)).1.1 h) (by decide),
    (heartbeat_waveform 34 (by decide)).2.1.2 rfl⟩

/-- C18 (fails on the code): entering `error`, line 143 stores 0 in
`errorReadoutTime`, and the 1000 ms of step 0 are counted from clock value 0.
The tick at 5000 that enters `error` for code `0x23` passes step 0 at once, and
the tick at 5500 switches the light on. -/
theorem lead_in_pause_cut_short :
    (lateErrorEntry.activity = .idle ∧ lateErrorEntry.pendingActivity = .error) ∧
      ((lateErrorEntry.update 5000).activity = .error ∧
        (lateErrorEntry.update 5000).errorReadoutStep = 1 ∧
        (lateErrorEntry.update 5000).diagLight = false) ∧
      ((lateErrorEntry.update 5000).update 5500).diagLight = true ∧
      5500 < 5000 + 1000 := by
  decide

/-- C19: when `activity` is `idle` after a tick, the logical output is on after
that tick, and the switch on `activity` has changed no timer and no step
counter of the state the arbitration left. -/
theorem idle_steady_light (d : Diagnostic_LED) (millis : Nat)
    (h : (d.update millis).activity = .idle) :
    (d.update millis).diagLight = true ∧
      ((d.update millis).activityLastCall = d.updateActivityState.activityLastCall ∧
        (d.update millis).errorReadoutTime = d.updateActivityState.errorReadoutTime ∧
        (d.update millis).errorReadoutCount = d.updateActivityState.errorReadoutCount ∧
        (d.update millis).errorReadoutStep = d.updateActivityState.errorReadoutStep ∧
        (d.update millis).heartbeatStep = d.updateActivityState.heartbeatStep ∧
        (d.update millis).heartbeatTime = d.updateActivityState.heartbeatTime) := by
  rw [update_eq, activitySwitch_activity] at h
  rw [update_eq, activitySwitch_idle _ _ h]
  by_cases hc : d.updateActivityState.diagLight ≠ DL_ON
  · rw [if_pos hc, setDiagLED_eq]
    exact ⟨rfl, rfl, rfl, rfl, rfl, rfl, rfl⟩
  · rw [if_neg hc]
    exact ⟨by simpa using hc, rfl, rfl, rfl, rfl, rfl, rfl⟩

set_option maxRecDepth 100000 in
/-- A heartbeat at step 2, left for `idle` by the tick at 300. -/
theorem idle_steady_light_witness :
    (((heartbeatRun 3).setActivity .idle).update 300).diagLight = true ∧
      (((heartbeatRun 3).setActivity .idle).update 300).heartbeatStep = 2 ∧
      (((heartbeatRun 3).setActivity .idle).update 300).heartbeatTime = 150 :=
  ⟨(idle_steady_light ((heartbeatRun 3).setActivity .idle) 300 (by decide)).1,
    (idle_steady_light ((heartbeatRun 3).setActivity .idle) 300 (by decide)).2.2.2.2.2.1,
    (idle_steady_light ((heartbeatRun 3).setActivity .idle) 300 (by decide)).2.2.2.2.2.2⟩

/-- C20: while blinking with nothing pending, a tick at the 32-bit time `now`
toggles the logical output and stores `now` as the time of the last toggle
when `now - activityLastCall`, taken modulo `2 ^ 32`, has reached `blinkRate`,
and otherwise changes nothing. -/
theorem blink_tick (d : Diagnostic_LED) (now : Nat) (ha : d.activity = .blink)
    (hp : d.pendingActivity = .none) (hn : now < 2 ^ 32)
    (hl : d.activityLastCall < 2 ^ 32) :
    d.update now =
      if d.blinkRate ≤ (now + 2 ^ 32 - d.activityLastCall) % 2 ^ 32 then
        { d with activityLastCall := now, diagLight := !d.diagLight, pinLevel := !d.diagLight }
      else d := by
  have hs : sub32 now d.activityLastCall = (now + 2 ^ 32 - d.activityLastCall) % 2 ^ 32 := by
    unfold sub32
    rw [Nat.mod_eq_of_lt hl]
  rw [update_eq, updateActivityState_blocked d (Or.inl hp), Nat.mod_eq_of_lt hn,
    activitySwitch_blink _ _ ha, hs]
  rfl

/-- The last toggle was at `2 ^ 32 - 100` and the clock, wrapped, shows 400:
500 ms have passed and the light toggles. -/
theorem blink_tick_witness :
    wrapBlink.activityLastCall = 2 ^ 32 - 100 ∧
      wrapBlink.update 400 =
        { wrapBlink with
          activityLastCall := 400
          diagLight := !wrapBlink.diagLight
          pinLevel := !wrapBlink.diagLight } :=
  ⟨by decide, blink_tick wrapBlink 400 (by decide) (by decide) (by decide) (by decide)⟩

end DiagLED
